import Mathlib

/-!
# Verification of the wireframe layout and rendering engine

Shallow embedding of `render_wireframes.py` (the layout/rendering core of
the repository).  Python strings are modelled as `String` / `List Char`
(one entry per code point, matching Python's `len`/slicing), integer
arithmetic as `Nat`/`Int`, and real (float) arithmetic as `ℚ` — every
coordinate computed by the source is a ratio of integers, and none of the
verified properties depends on binary rounding.  SVG emission is modelled
structurally: each call to the source's `rect`/`text`/`line`/`button`
helpers (or inline `<rect …>` f-string) becomes one `Elem` value appended
to the render buffer, carrying exactly the parameters the source passes.
The ambient values the source reads during a render — the cached
navigation list (`nav_from_page_labels`) and the wall clock
(`datetime.now()`) — are passed to `render_page_svg` as explicit
parameters.
-/

namespace Wireframes

/-! ## Python string primitives (over `List Char`) -/

/-- Python `str.strip()` : drop leading and trailing whitespace. -/
def pyStrip (l : List Char) : List Char :=
  ((l.dropWhile Char.isWhitespace).reverse.dropWhile Char.isWhitespace).reverse

/-- Python `str.rstrip()` : drop trailing whitespace. -/
def pyRstrip (l : List Char) : List Char :=
  (l.reverse.dropWhile Char.isWhitespace).reverse

/-- Python `s[:stop]` on a string: a negative `stop` counts from the end. -/
def pySliceTo (l : List Char) (stop : Int) : List Char :=
  if 0 ≤ stop then l.take stop.toNat
  else l.take (l.length - (-stop).toNat)

/-! ## Source constants (`render_wireframes.py`, module header) -/

def CANVAS_W : ℚ := 1200
def CANVAS_H : ℚ := 1850
def MARGIN : ℚ := 36
def GUTTER : ℚ := 18
def HEADER_H : ℚ := 70
def SECTION_GAP : ℚ := 18
def SECTION_PAD : ℚ := 18
def NEWSLETTER_BAND_H : ℚ := 220
def FOOTER_DARK_H : ℚ := 140
def COMP_H : Nat := 34
def COMP_GAP : Nat := 10
def LOGO_W : ℚ := 120
def LOGO_H : ℚ := 44
def HEADER_CTA_W : ℚ := 130
def HEADER_CTA_H : ℚ := 34
def NAV_GAP : ℚ := 22
def NAV_RIGHT_GAP : ℚ := 18

/-! ## Utilities (`safe_filename`, `escape_xml`, `truncate`,
`approx_text_width`, `canon`) -/

/-- The character class `[a-z0-9\-]` of `safe_filename`'s first regex. -/
def allowedChar (c : Char) : Bool :=
  ('a' ≤ c && c ≤ 'z') || ('0' ≤ c && c ≤ '9') || c = '-'

/-- Run automaton for `re.sub(r"[^a-z0-9\-]+", "-", s)`: `inRun` records
that the previous character was part of a replaced run. -/
def subNonAllowedGo : Bool → List Char → List Char
  | _, [] => []
  | inRun, c :: cs =>
    if allowedChar c then c :: subNonAllowedGo false cs
    else if inRun then subNonAllowedGo true cs
    else '-' :: subNonAllowedGo true cs

/-- `re.sub(r"[^a-z0-9\-]+", "-", s)` : each maximal run of characters
outside the class becomes a single hyphen. -/
def subNonAllowed (l : List Char) : List Char :=
  subNonAllowedGo false l

/-- Run automaton for `re.sub(r"-+", "-", s)`. -/
def collapseDashesGo : Bool → List Char → List Char
  | _, [] => []
  | prevDash, c :: cs =>
    if c = '-' then
      if prevDash then collapseDashesGo true cs
      else '-' :: collapseDashesGo true cs
    else c :: collapseDashesGo false cs

/-- `re.sub(r"-+", "-", s)` : collapse hyphen runs. -/
def collapseDashes (l : List Char) : List Char :=
  collapseDashesGo false l

/-- Python `s.strip("-")`. -/
def stripDashes (l : List Char) : List Char :=
  ((l.dropWhile (· = '-')).reverse.dropWhile (· = '-')).reverse

/-- `safe_filename` (source lines 38–42), on `List Char`:
strip, lowercase, replace non-`[a-z0-9-]` runs with `-`, collapse `-`
runs, strip `-`, and default to `"page"` when empty. -/
def safe_filename (s : List Char) : List Char :=
  let s1 := (pyStrip s).map Char.toLower
  let s2 := stripDashes (collapseDashes (subNonAllowed s1))
  if s2 = [] then "page".data else s2

/-- `escape_xml` (source lines 45–52): the five XML-significant
characters, ampersand first. -/
def escape_xml (t : String) : String :=
  ((((t.replace "&" "&amp;").replace "<" "&lt;").replace ">"
      "&gt;").replace "\"" "&quot;").replace "\x27" "&apos;"

/-- `truncate` (source lines 55–57), over `List Char`:
strip, return unchanged if within `max_len`, else the first
`max_len - 1` characters right-stripped plus one ellipsis character. -/
def truncateL (l : List Char) (maxLen : Int) : List Char :=
  let t := pyStrip l
  if (t.length : Int) ≤ maxLen then t
  else pyRstrip (pySliceTo t (maxLen - 1)) ++ ['…']

/-- `truncate` on `String`s (the form the drawing code uses). -/
def truncate (s : String) (maxLen : Int) : String :=
  ⟨truncateL s.data maxLen⟩

/-- `approx_text_width` (source line 60–61): `int(len(label) * 7.0)`. -/
def approx_text_width (label : String) : ℚ :=
  7 * label.length

/-- `canon` (source lines 64–65): strip, lowercase, underscores and
spaces to hyphens.  Both `.replace` needles are single characters, so
the two replacements are the per-character map below. -/
def canon (s : String) : String :=
  String.mk ((pyStrip s.data).map (fun c =>
    let c := c.toLower
    if c = '_' then '-' else if c = ' ' then '-' else c))

/-! ## Data model

Typed counterpart of the JSON dictionaries the renderer reads.  A field
whose Python default is a fixed literal is stored directly (a missing
key is the default value); `id` and `label`, whose defaults are computed
at the read site, are `Option`s. -/

/-- A component dictionary: the keys `draw_section` and the accessors
read, with `fields`/`items` as string lists. -/
structure Component where
  type : String := ""
  label : Option String := none
  placeholder : String := ""
  fields : List String := []
  items : List String := []
  deriving DecidableEq, Repr

/-- The `semantic` overlay dictionary: the two keys the renderer reads
(`intent`, `supporting_facts`). -/
structure Semantic where
  intent : String := ""
  supporting_facts : List String := []
  deriving DecidableEq, Repr

/-- A section dictionary. -/
structure Section where
  id : Option String := none
  type : String := ""
  label : Option String := none
  h2 : String := ""
  h3 : List String := []
  components : List Component := []
  semantic : Semantic := {}
  deriving DecidableEq, Repr

/-- A page dictionary (`page`, `slug`, `layout.h1`, `layout.sections`). -/
structure Page where
  page : String := "Page"
  slug : String := "/"
  h1 : String := ""
  sections : List Section := []
  deriving DecidableEq, Repr

/-! ## Content accessors (source lines 68–110) -/

/-- `find_components(sec, *types_)`: all components whose canonicalized
type is in the requested set, in order. -/
def find_components (sec : Section) (types_ : List String) : List Component :=
  sec.components.filter (fun c => (types_.map canon).contains (canon c.type))

/-- `first_text_like(sec)`: first component whose canonical type is
`"text"`. -/
def first_text_like (sec : Section) : Option Component :=
  sec.components.find? (fun c => canon c.type = "text")

/-- `first_button(sec)`: first component whose canonical type is
`"button"`. -/
def first_button (sec : Section) : Option Component :=
  sec.components.find? (fun c => canon c.type = "button")

/-- `list_items_from_component(c)`: `items` if non-empty, else `fields`
if non-empty, else `[]`; blank entries dropped. -/
def list_items_from_component (c : Component) : List String :=
  if c.items ≠ [] then c.items.filter (fun x => pyStrip x.data ≠ [])
  else if c.fields ≠ [] then c.fields.filter (fun x => pyStrip x.data ≠ [])
  else []

/-- `best_text_for_component(c, fallback)`: `placeholder` if non-blank,
else `label` if non-blank, else the fallback. -/
def best_text_for_component (c : Component) (fallback : String) : String :=
  let ph := String.mk (pyStrip c.placeholder.data)
  if ph ≠ "" then ph
  else
    let lab := String.mk (pyStrip (c.label.getD "").data)
    if lab ≠ "" then lab else fallback

/-! ## Dynamic section sizing (source lines 308–421) -/

/-- The field-like component kinds requested by the `form` branches
(source lines 386 and 730). -/
def ffKinds : List String :=
  ["form-field", "form_field", "field", "input", "textarea", "select",
    "checkbox", "radio"]

/-- The `rows = dflt; if comp: items = …; if items: rows = max(dflt,
min(cap, len(items)))` pattern shared by the `content`, `faq` and
`steps` height branches. -/
def clamped_count (sec : Section) (kind : String) (dflt cap : Nat) : Nat :=
  match find_components sec [kind] with
  | [] => dflt
  | c :: _ =>
    let items := list_items_from_component c
    if items = [] then dflt else max dflt (min cap items.length)

/-- `_inner_bottom_for_section(st, sec, inner_y, …)` with `inner_y`
abstract (the caller passes 0); `inner_x`/`inner_w` are unused by the
source's height paths. -/
def _inner_bottom_for_section (st : String) (sec : Section) (inner_y : Nat) : Nat :=
  let st := canon st
  if st = "hero" then
    let img_h := 240
    let b := inner_y + img_h
    let b := max b (inner_y + 240)
    b + 14
  else if st = "features" then
    -- cards_count is computed by the source but does not affect height
    inner_y + 140 + 14
  else if st = "content" then
    let divider_y := inner_y + 120
    let heading_y := divider_y + 48
    let bullet_rows := clamped_count sec "list" 4 12
    let bullets_start_y := heading_y + 32
    let bullets_end_y := bullets_start_y + bullet_rows * 22
    let text_count := (find_components sec ["text"]).length
    let para_extra := (text_count - 1) * 22
    let bottom := max bullets_end_y (inner_y + 96 + para_extra)
    bottom + 18
  else if st = "faq" then
    let faq_items := clamped_count sec "accordion" 4 10
    inner_y + faq_items * 44 + 10
  else if st = "proof" then
    if find_components sec ["quote"] ≠ [] then inner_y + 90 + 14
    else if find_components sec ["stats"] ≠ [] then inner_y + 110 + 14
    else inner_y + 90 + 14
  else if st = "steps" then
    let steps := clamped_count sec "list" 3 8
    inner_y + steps * 36 + 18
  else if st = "form" then
    let ff := find_components sec ffKinds
    let fields_count := if ff = [] then 3 else max 3 (min 6 ff.length)
    inner_y + 70 + fields_count * 36 + 18
  else if st = "cta" ∨ st = "footer-cta" ∨ st = "footer_cta" ∨
      st = "cta-section" ∨ st = "call-to-action" then
    inner_y + 90 + 34 + 18
  else
    let comps := sec.components
    let rows := if comps = [] then 3 else min 6 comps.length
    inner_y + rows * (COMP_H + COMP_GAP) + 18

/-- The per-type minimum table, with its `.get(st, 220)` default. -/
def min_total (st : String) : Nat :=
  if st = "hero" then 360
  else if st = "features" then 260
  else if st = "content" then 280
  else if st = "proof" then 210
  else if st = "steps" then 240
  else if st = "faq" then 220
  else if st = "cta" then 160
  else if st = "call-to-action" then 160
  else if st = "form" then 240
  else if st = "gallery" then 240
  else if st = "footer_cta" then 160
  else if st = "footer-cta" then 160
  else if st = "section" then 220
  else 220

/-- `section_height_for(sec)` (source lines 400–421). -/
def section_height_for (sec : Section) : Nat :=
  let st := canon sec.type
  let header_block := 72
  let inner_bottom := _inner_bottom_for_section st sec 0
  max (min_total st) (header_block + inner_bottom + 8)

/-! ## Content statistics

The section-height computation reads a section only through the
quantities below; they name "the number of list-type items" and its
peers for the monotonicity statement. -/

/-- Item count of the first component of canonical kind `kind`
(`0` when there is no such component or it extracts no items). -/
def firstItemsN (sec : Section) (kind : String) : Nat :=
  match find_components sec [kind] with
  | [] => 0
  | c :: _ => (list_items_from_component c).length

/-- Whether a component of canonical kind `kind` is present. -/
def has_comp (sec : Section) (kind : String) : Bool :=
  decide (find_components sec [kind] ≠ [])

/-- Number of `text`-kind components. -/
def textN (sec : Section) : Nat := (find_components sec ["text"]).length

/-- Number of field-like components (the `form` branch's query). -/
def fieldN (sec : Section) : Nat := (find_components sec ffKinds).length

/-! ## SVG output model

Each call of the source's `rect` / `text` / `line` / `button` helpers
(and each inline `<rect …>` / raw f-string append) becomes one `Elem`
carrying the parameters the source passes.  `text` stores the text
before XML escaping; escaping happens at serialization and is injective
on the stored string, so no counting or equality statement is affected. -/

inductive Elem where
  | rect (x y w h : ℚ) (cls : String) (rx : ℚ)
  | text (x y : ℚ) (t : String) (cls : String) (anchor : Option String)
  | line (x1 y1 x2 y2 : ℚ) (cls : String)
  | button (x y w h : ℚ) (label : String) (dark : Bool)
  | raw (s : String)
  deriving DecidableEq, Repr

/-- Python `int(...)` on a real value: truncation toward zero.  The
source applies it to nonnegative layout ratios only. -/
def pyInt (q : ℚ) : Int :=
  if 0 ≤ q then ⌊q⌋ else -⌊-q⌋

/-- `str.split()` helper: cut at every whitespace character. -/
def splitWsGo : List Char → List Char → List (List Char)
  | acc, [] => [acc.reverse]
  | acc, c :: cs =>
    if Char.isWhitespace c then acc.reverse :: splitWsGo [] cs
    else splitWsGo (c :: acc) cs

/-- Python `s.split()` (no separator): whitespace runs, empties
dropped. -/
def pySplitWs (l : List Char) : List (List Char) :=
  (splitWsGo [] l).filter (· ≠ [])

/-- Python `" ".join(s.split())`: collapse whitespace runs to single
spaces and trim. -/
def normSpaces (s : String) : String :=
  String.mk (List.intercalate [' '] (pySplitWs s.data))

/-- Python `str.upper()`, per character. -/
def pyUpper (s : String) : String :=
  String.mk (s.data.map Char.toUpper)

/-- The `while len(col) < rows: col.append("Additional point...")`
padding of the content bullet columns. -/
def padTo (l : List String) (rows : Nat) : List String :=
  l ++ List.replicate (rows - l.length) "Additional point..."

/-- One bullet column of the content block (source lines 633–636 and
660–661): `rows` rows at `bx + 6`, one row of height 22 each, items
truncated to `maxlen` characters. -/
def bullet_col_elems (bx col_y : ℚ) (maxlen : Int) (col_items : List String)
    (rows : Nat) : List Elem :=
  (List.range rows).map (fun (i : Nat) =>
    Elem.text (bx + 6) (col_y + (i : ℚ) * 22)
      ("• " ++ truncate (col_items.getD i "") maxlen) "small" none)

/-- The dashed image placeholder of the one-column mode (source lines
673–676): dashed frame, the two diagonals, and the `"IMAGE"` caption. -/
def image_ph_elems (ph_x ph_y ph_w ph_h : ℚ) : List Elem :=
  [Elem.rect ph_x ph_y ph_w ph_h "sketch-dash" 12,
   Elem.line (ph_x + 10) (ph_y + 10) (ph_x + ph_w - 10) (ph_y + ph_h - 10) "imgx",
   Elem.line (ph_x + ph_w - 10) (ph_y + 10) (ph_x + 10) (ph_y + ph_h - 10) "imgx",
   Elem.text (ph_x + 14) (ph_y + 24) "IMAGE" "small muted" none]

/-- The bulleted block of the `content` branch (source lines 598–677):
`raw` is `bullet_items_raw`, the extracted items of the first
`list`-kind component.  Emits, in source order, the vertical divider,
the bullet rows (two balanced columns for 8+ items, else one column),
and — in one-column mode — the dashed image placeholder. -/
def contentBulletElems (inner_x inner_w heading_y : ℚ)
    (raw : List String) : List Elem :=
  let use_two_cols := 8 ≤ raw.length
  let col_y := heading_y + 32
  let row_h : ℚ := 22
  let col_gap : ℚ := 26
  if use_two_cols then
    let items := raw.take 12
    let left_n := (items.length + 1) / 2
    let left_col := items.take left_n
    let right_col := items.drop left_n
    let rows : Nat := max 4 (max left_col.length right_col.length)
    let left_p := padTo left_col rows
    let right_p := padTo right_col rows
    let col_w := (inner_w - col_gap) / 2
    let split_x := inner_x + col_w + col_gap / 2
    let divider_top := col_y - 6
    let divider_bottom := col_y + (rows : ℚ) * row_h + 6
    Elem.line split_x divider_top split_x divider_bottom "imgx" ::
      (bullet_col_elems inner_x col_y 34 left_p rows ++
       bullet_col_elems (inner_x + (col_w + col_gap)) col_y 34 right_p rows)
  else
    let items := raw.take 10
    let rows : Nat := max 4 items.length
    let items_p := padTo items rows
    let list_w : ℚ := pyInt (inner_w * (55 / 100 : ℚ))
    let img_x := inner_x + list_w + col_gap
    let img_w := inner_w - list_w - col_gap
    let split_x := inner_x + list_w + col_gap / 2
    let divider_top := col_y - 6
    let content_h := (rows : ℚ) * row_h + 18
    let divider_bottom := col_y + content_h + 6
    let img_h := min (240 : ℚ) content_h
    let ph_w : ℚ := pyInt (img_w * (86 / 100 : ℚ))
    let ph_h : ℚ := pyInt (img_h * (82 / 100 : ℚ))
    let ph_x := img_x + (img_w - ph_w) / 2
    let ph_y := col_y + (content_h - ph_h) / 2
    Elem.line split_x divider_top split_x divider_bottom "imgx" ::
      (bullet_col_elems inner_x col_y 52 items_p rows ++
       image_ph_elems ph_x ph_y ph_w ph_h)

/-- The input-row loop of the `form` branch (source lines 745–748):
one plain rectangle and one label text per shown field, advancing 36
per row from `inner_y + 70`. -/
def form_rows_elems (inner_x inner_y inner_w : ℚ) (shown : List String) : List Elem :=
  shown.enum.flatMap (fun p =>
    let yy := inner_y + 70 + p.1 * 36
    [Elem.rect inner_x yy inner_w 30 "sketch" 8,
     Elem.text (inner_x + 12) (yy + 20) p.2 "small muted" none])

/-- `draw_section(svg, x, y, w, sec, idx)` (source lines 427–779):
returns the elements appended to the buffer and the new cursor
`y + h + SECTION_GAP`. -/
def draw_section (x y w : ℚ) (sec : Section) (idx : Nat) : List Elem × ℚ :=
  let st := canon sec.type
  let sec_id := sec.id.getD ("section-" ++ toString (idx + 1))
  let label := truncate (sec.label.getD (if st = "" then "Section" else st)) 60
  let h2 := let t := truncate sec.h2 80; if t = "" then label else t
  let h3 := sec.h3
  let h : ℚ := section_height_for sec
  let intent := sec.semantic.intent
  let facts := sec.semantic.supporting_facts
  let intent_short :=
    String.mk (intent.data.take 60) ++
      (if intent ≠ "" ∧ 60 < intent.length then "…" else "")
  let overlay := "intent: " ++ intent_short ++ " • facts: " ++ toString facts.length
  let pro : List Elem :=
    [Elem.rect x y w h "sketch" 14,
     Elem.text (x + 16) (y + 28) h2 "h2" none,
     Elem.text (x + 16) (y + 44) overlay "overlay" none,
     Elem.text (x + 16) (y + 60) (st ++ " • id: " ++ sec_id) "small muted" none]
  let inner_x := x + SECTION_PAD
  let inner_y := y + 72
  let inner_w := w - 2 * SECTION_PAD
  let body : List Elem :=
    if st = "hero" then
      let img_h : ℚ := 280
      let headline := truncate h2 44
      let title_y := inner_y + 118
      let subtitle := match h3 with | [] => "" | s :: _ => s
      let subtitle := truncate (normSpaces subtitle) 78
      let subtitle_y := title_y + 28
      let btn_label :=
        match first_button sec with
        | some b => best_text_for_component b "Learn More"
        | none => "Learn More"
      let btn_label := truncate (normSpaces btn_label) 28
      let btn_w : ℚ := (max 120 (min 300 (46 + btn_label.length * 9)) : Nat)
      let btn_h : ℚ := 34
      let btn_x := x + w / 2 - btn_w / 2
      let content_bottom_y := if subtitle ≠ "" then subtitle_y else title_y
      let btn_y := content_bottom_y + 26
      let cap_text :=
        match first_text_like sec with
        | some c => best_text_for_component c "Caption size text here with a link"
        | none => "Caption size text here with a link"
      let cap_text := truncate (normSpaces cap_text) 78
      let cap_y := btn_y + btn_h + 18
      [Elem.rect inner_x inner_y inner_w img_h "imgph" 10,
       Elem.line (inner_x + 10) (inner_y + 10) (inner_x + inner_w - 10)
         (inner_y + img_h - 10) "imgx",
       Elem.line (inner_x + inner_w - 10) (inner_y + 10) (inner_x + 10)
         (inner_y + img_h - 10) "imgx",
       Elem.text (x + w / 2) title_y headline "h1" (some "middle")] ++
      (if subtitle ≠ "" then
        [Elem.text (x + w / 2) subtitle_y subtitle "small muted" (some "middle")]
       else []) ++
      [Elem.button btn_x btn_y btn_w btn_h btn_label false,
       Elem.text (x + w / 2) cap_y cap_text "small nav-link" (some "middle")]
    else if st = "features" then
      let card_gap : ℚ := 16
      let card_w := (inner_w - 2 * card_gap) / 3
      let card_h : ℚ := 140
      let card_titles :=
        match find_components sec ["cards"] with
        | [] => []
        | c :: _ =>
          let items := list_items_from_component c
          if items ≠ [] then items.take 3 else []
      let card_titles :=
        if card_titles = [] ∧ h3 ≠ [] then h3.take 3 else card_titles
      let card_titles := card_titles ++
        (List.range (3 - card_titles.length)).map
          (fun i => label ++ " " ++ toString (card_titles.length + i + 1))
      let body_line :=
        truncate (match first_text_like sec with
          | some t => best_text_for_component t "Lorem ipsum dolor sit amet,"
          | none => "Lorem ipsum dolor sit amet,") 44
      let btn_label :=
        truncate (match first_button sec with
          | some b => best_text_for_component b "Learn More"
          | none => "Learn More") 18
      (List.range 3).flatMap (fun i =>
        let cx := inner_x + i * (card_w + card_gap)
        [Elem.rect cx inner_y card_w card_h "sketch" 12,
         Elem.text (cx + 12) (inner_y + 28)
           (pyUpper (truncate (card_titles.getD i "") 20)) "small" none,
         Elem.text (cx + 12) (inner_y + 54) body_line "small muted" none,
         Elem.button (cx + 12) (inner_y + 92) 110 30 btn_label false])
    else if st = "content" then
      let left_w : ℚ := pyInt (inner_w * (28 / 100 : ℚ))
      let rx_ := inner_x + left_w + 18
      let lists := find_components sec ["list"]
      let left_lines :=
        match lists with
        | [] => []
        | c :: _ => (list_items_from_component c).take 3
      let left_lines :=
        if left_lines = [] then
          [label ++ " item 1", label ++ " item 2", label ++ " item 3"]
        else left_lines
      let subtitle :=
        match h3 with
        | s :: _ => truncate s 60
        | [] => truncate label 60
      let texts := find_components sec ["text"]
      let para_lines := (texts.take 3).map
        (fun c => truncate (best_text_for_component c "Lorem ipsum dolor sit amet.") 52)
      let para_lines := para_lines ++
        List.replicate (3 - para_lines.length) "Lorem ipsum dolor sit amet, consectetur"
      let divider_y := inner_y + 120
      let heading_y := divider_y + 48
      let heading := truncate
        (pyUpper (match sec.label with
          | some l => if l = "" then "CONTENT" else l
          | none => "CONTENT")) 36
      let bullet_items_raw :=
        match lists with
        | [] => []
        | c :: _ => list_items_from_component c
      [Elem.text (inner_x + 6) (inner_y + 22) (truncate (left_lines.getD 0 "") 22) "small" none,
       Elem.text (inner_x + 6) (inner_y + 40) (truncate (left_lines.getD 1 "") 22) "small" none,
       Elem.text (inner_x + 6) (inner_y + 58) (truncate (left_lines.getD 2 "") 22) "small" none,
       Elem.text rx_ (inner_y + 24) (pyUpper subtitle) "h2" none,
       Elem.text rx_ (inner_y + 52) (para_lines.getD 0 "") "small muted" none,
       Elem.text rx_ (inner_y + 70) (para_lines.getD 1 "") "small muted" none,
       Elem.text rx_ (inner_y + 88) (para_lines.getD 2 "") "small muted" none,
       Elem.line (inner_x + 10) divider_y (inner_x + inner_w - 10) divider_y "imgx",
       Elem.text (inner_x + 6) heading_y heading "h2" none] ++
      contentBulletElems inner_x inner_w heading_y bullet_items_raw
    else if st = "steps" then
      let items :=
        match find_components sec ["list"] with
        | [] => []
        | c :: _ => list_items_from_component c
      let items := if items = [] then ["Step 1", "Step 2", "Step 3"] else items
      (items.take 8).enum.flatMap (fun p =>
        let yy := inner_y + p.1 * 36
        [Elem.rect inner_x yy inner_w 30 "sketch-dash" 10,
         Elem.text (inner_x + 14) (yy + 20)
           (toString (p.1 + 1) ++ ". " ++ truncate p.2 90) "small" none])
    else if st = "proof" then
      match find_components sec ["stats"] with
      | c :: _ =>
        [Elem.rect inner_x inner_y inner_w 90 "sketch-dash" 12,
         Elem.text (inner_x + 14) (inner_y + 24) "Impact Statistics" "small" none,
         Elem.text (inner_x + 14) (inner_y + 48)
           (truncate (best_text_for_component c "[CONFIRM impact statistics]") 90)
           "small muted" none]
      | [] =>
        match find_components sec ["quote"] with
        | c :: _ =>
          [Elem.rect inner_x inner_y inner_w 70 "sketch-dash" 12,
           Elem.text (inner_x + 14) (inner_y + 28)
             (truncate (best_text_for_component c "Expert quote or testimonial") 90)
             "small" none]
        | [] =>
          [Elem.rect inner_x inner_y inner_w 70 "sketch-dash" 12,
           Elem.text (inner_x + 14) (inner_y + 28) "Proof / Testimonial / Stats"
             "small" none]
    else if st = "faq" then
      let items :=
        match find_components sec ["accordion"] with
        | [] => []
        | c :: _ => list_items_from_component c
      let items :=
        if items = [] then ["FAQ item 1", "FAQ item 2", "FAQ item 3", "FAQ item 4"]
        else items
      (items.take 10).enum.flatMap (fun p =>
        let yy := inner_y + p.1 * 44
        [Elem.rect inner_x yy inner_w 34 "sketch-dash" 10,
         Elem.text (inner_x + 14) (yy + 22) (truncate p.2 100) "small" none])
    else if st = "form" then
      let ff := find_components sec ffKinds
      let fields := (ff.take 6).map
        (fun c => truncate (best_text_for_component c (c.label.getD "Field")) 40)
      let fields := if fields = [] then ["Name", "Email", "Message"] else fields
      let sub :=
        match h3 with
        | s :: _ => truncate s 80
        | [] => "Lorem ipsum dolor sit amet, consectetur adipiscing elit."
      let shown := fields.take 5
      let btn_label :=
        truncate (match first_button sec with
          | some b => best_text_for_component b "Send Message"
          | none => "Send Message") 20
      [Elem.text (inner_x + inner_w / 2) (inner_y + 26) (truncate h2 48) "h2" (some "middle"),
       Elem.text (inner_x + inner_w / 2) (inner_y + 70) sub "small muted" (some "middle")] ++
      form_rows_elems inner_x inner_y inner_w shown ++
      [Elem.button (inner_x + inner_w - 150) (inner_y + 70 + shown.length * 36 + 4)
        150 34 btn_label true]
    else if st = "cta" ∨ st = "call-to-action" ∨ st = "cta-section" ∨
        st = "footer-cta" ∨ st = "footer_cta" ∨ st = "footer-call-to-action" ∨
        st = "footer_call_to_action" then
      let title := truncate h2 50
      let sub :=
        match h3 with
        | s :: _ => truncate s 90
        | [] => "Lorem ipsum dolor sit amet, consectetur adipiscing elit."
      let btn_label :=
        truncate (match first_button sec with
          | some b => best_text_for_component b "Take Action"
          | none => "Take Action") 20
      [Elem.text (inner_x + inner_w / 2) (inner_y + 34) title "h2" (some "middle"),
       Elem.text (inner_x + inner_w / 2) (inner_y + 60) sub "small muted" (some "middle"),
       Elem.button (inner_x + inner_w / 2 - 70) (inner_y + 90) 140 34 btn_label false]
    else
      let comps := sec.components
      let comps :=
        if comps = [] then
          List.replicate 3
            { type := "text", label := some "Placeholder content", placeholder := "" }
        else comps
      (comps.take 6).enum.flatMap (fun p =>
        let cy := inner_y + p.1 * (COMP_H + COMP_GAP)
        [Elem.rect inner_x cy inner_w (COMP_H : Nat) "sketch-dash" 10,
         Elem.text (inner_x + 14) (cy + 22)
           (truncate (best_text_for_component p.2 "Component") 95) "small" none])
  (pro ++ body, y + h + SECTION_GAP)

/-! ## Page composition (source lines 785–901)

The page-level geometry, computed once per render from the module
constants. -/

def frame_x : ℚ := MARGIN
def frame_y : ℚ := MARGIN
def frame_w : ℚ := CANVAS_W - 2 * MARGIN
def frame_h : ℚ := CANVAS_H - 2 * MARGIN
def hx : ℚ := frame_x + GUTTER
def hy : ℚ := frame_y + GUTTER
def hw : ℚ := frame_w - 2 * GUTTER
def cta_x : ℚ := hx + hw - HEADER_CTA_W
def footer_y : ℚ := frame_y + frame_h - FOOTER_DARK_H - GUTTER
def band_y : ℚ := footer_y - NEWSLETTER_BAND_H - GUTTER
def content_bottom_limit : ℚ := band_y - SECTION_GAP
def content_x : ℚ := frame_x + GUTTER
def content_w : ℚ := frame_w - 2 * GUTTER

/-- The body cursor's start offset (`hy + HEADER_H + 8`). -/
def cursor0 : ℚ := hy + HEADER_H + 8

/-- The `css_block()` literal (source lines 116–230), braces escaped. -/
def css_block_text : String :=
  "
    <style>
      .page-bg \x7b fill: #f6f6f6; \x7d
      .page-frame \x7b fill: #ffffff; stroke: #2b2b2b; stroke-width: 2.2; rx: 16; ry: 16; \x7d
      .sketch \x7b stroke: #2b2b2b; stroke-width: 2.2; stroke-linecap: round; stroke-linejoin: round; fill: #ffffff; \x7d
      .sketch-dash \x7b stroke: #2b2b2b; stroke-width: 2.2; stroke-linecap: round; stroke-linejoin: round; fill: #ffffff; stroke-dasharray: 7 6; \x7d
      .panel-light \x7b fill: #e9e9e9; stroke: #2b2b2b; stroke-width: 2.2; stroke-linecap: round; stroke-linejoin: round; \x7d
      .panel-dark \x7b fill: #6f6f6f; stroke: #2b2b2b; stroke-width: 2.2; stroke-linecap: round; stroke-linejoin: round; \x7d
      .text \x7b font-family: \"Balsamiq Sans\", \"Comic Sans MS\", \"Segoe UI\", Arial, sans-serif; fill: #222; \x7d
      .meta \x7b font-size: 15px; font-weight: 700; \x7d
      .small \x7b font-size: 12px; font-weight: 400; opacity: 0.9; \x7d
      .overlay \x7b font-size: 11px; font-weight: 600; opacity: 0.75; \x7d
      .nav-link \x7b font-size: 13px; fill: #1a73e8; text-decoration: underline; font-weight: 600; \x7d
      .footer-link \x7b font-size: 13px; fill: #ffffff; text-decoration: underline; font-weight: 600; \x7d
      .h1 \x7b font-size: 34px; font-weight: 800; \x7d
      .h2 \x7b font-size: 18px; font-weight: 800; \x7d
      .h3 \x7b font-size: 13px; font-weight: 800; \x7d
      .muted \x7b opacity: 0.8; \x7d
      .button \x7b fill: #efefef; stroke: #2b2b2b; stroke-width: 2.2; stroke-linecap: round; stroke-linejoin: round; \x7d
      .button-dark \x7b fill: #3e3e3e; stroke: #2b2b2b; stroke-width: 2.2; stroke-linecap: round; stroke-linejoin: round; \x7d
      .button-text \x7b font-size: 12px; font-weight: 700; fill: #222; \x7d
      .button-text-inv \x7b font-size: 12px; font-weight: 700; fill: #ffffff; \x7d
      .imgph \x7b fill: #e9e9e9; stroke: #2b2b2b; stroke-width: 2.2; stroke-linecap: round; stroke-linejoin: round; \x7d
      .imgx \x7b stroke: #2b2b2b; stroke-width: 1.6; stroke-linecap: round; stroke-linejoin: round; opacity: 0.18; \x7d
      .vdiv \x7b stroke: #c9c9c9; stroke-width: 2.0; stroke-linecap: round; opacity: 0.9; \x7d
    </style>
    "

/-- The `<svg …>` opening tag with the fixed canvas size. -/
def svg_open_text : String :=
  "<svg xmlns=\"http://www.w3.org/2000/svg\" width=\"1200\" height=\"1850\" viewBox=\"0 0 1200 1850\">"

/-- The full-canvas background rectangle (raw append, source line 795). -/
def bg_rect_text : String :=
  "<rect x=\"0\" y=\"0\" width=\"1200\" height=\"1850\" class=\"page-bg\" />"

/-- The page frame rectangle (raw append, source line 802). -/
def frame_rect_text : String :=
  "<rect x=\"36\" y=\"36\" width=\"1128\" height=\"1778\" class=\"page-frame\" />"

/-- Canvas, frame and title caption (source lines 792–803). -/
def page_prologue (p : Page) : List Elem :=
  [Elem.raw svg_open_text, Elem.raw css_block_text, Elem.raw bg_rect_text,
   Elem.raw frame_rect_text,
   Elem.text frame_x (frame_y - 10) (p.page ++ " (" ++ p.slug ++ ")") "meta" none]

/-- The right-to-left nav placement walk (source lines 824–831):
stops at the first label whose left edge would cross the logo. -/
def navLoop (cursor : ℚ) : List String → List Elem
  | [] => []
  | item :: rest =>
    let w_est := approx_text_width item
    let x := cursor - w_est
    if x < hx + LOGO_W + 22 then []
    else Elem.text x (hy + 28) item "nav-link" none :: navLoop (x - NAV_GAP) rest

/-- Header: logo placeholder, CTA button and nav cluster
(source lines 809–831). -/
def header_elems (nav_items : List String) : List Elem :=
  [Elem.rect hx hy LOGO_W LOGO_H "sketch" 10,
   Elem.line (hx + 8) (hy + 8) (hx + LOGO_W - 8) (hy + LOGO_H - 8) "imgx",
   Elem.line (hx + LOGO_W - 8) (hy + 8) (hx + 8) (hy + LOGO_H - 8) "imgx",
   Elem.text (hx + 18) (hy + 28) "Logo Here" "small" none,
   Elem.button cta_x (hy + 6) HEADER_CTA_W HEADER_CTA_H "Take Action" false] ++
  navLoop (cta_x - NAV_RIGHT_GAP) nav_items.reverse

/-- The built-in default navigation list (`nav_from_page_labels`'s final
fallback, source line 300).  The first two tiers of that function read
`sitemap.json` / the input JSON from disk; the resolved snapshot is the
`nav_items` parameter of `render_page_svg` here. -/
def default_nav : List String :=
  ["Home", "About", "Objectives", "Resources", "Advocacy", "Contact"]

/-- `layout.get("h1", "").strip() or page_name` (source line 789). -/
def h1_of (p : Page) : String :=
  let t := String.mk (pyStrip p.h1.data)
  if t = "" then p.page else t

/-- The synthesized placeholder hero (source line 848). -/
def auto_hero (h1 : String) : Section :=
  { id := some "auto-hero", type := "hero", label := some "Hero", h2 := h1 }

/-- The hero slot (source lines 844–850): the first section when it is a
hero, else a synthesized hero from `h1`; returns the drawn elements and
the advanced cursor. -/
def hero_part (p : Page) : List Elem × ℚ :=
  match p.sections with
  | s :: _ =>
    if canon s.type = "hero" then draw_section content_x cursor0 content_w s 0
    else draw_section content_x cursor0 content_w (auto_hero (h1_of p)) 0
  | [] => draw_section content_x cursor0 content_w (auto_hero (h1_of p)) 0

/-- `start_idx` (source lines 846/850). -/
def start_idx (p : Page) : Nat :=
  match p.sections with
  | s :: _ => if canon s.type = "hero" then 1 else 0
  | [] => 0

/-- The sections the post-hero walk visits, in order. -/
def remaining_sections (p : Page) : List Section :=
  p.sections.drop (start_idx p)

/-- The post-hero section walk (source lines 852–858): draw each section
whose height fits before `content_bottom_limit`, stop at the first that
does not.  Returns the emitted elements, the final cursor, and the
number of undrawn sections. -/
def body_walk (cursor : ℚ) (idx : Nat) : List Section → List Elem × ℚ × Nat
  | [] => ([], cursor, 0)
  | s :: rest =>
    let next_h : ℚ := section_height_for s
    if content_bottom_limit < cursor + next_h then ([], cursor, (s :: rest).length)
    else
      let d := draw_section content_x cursor content_w s idx
      let r := body_walk d.2 (idx + 1) rest
      (d.1 ++ r.1, r.2.1, r.2.2)

/-- The body of a page: the walk applied from the hero slot's cursor. -/
def body_part (p : Page) : List Elem × ℚ × Nat :=
  body_walk (hero_part p).2 (start_idx p) (remaining_sections p)

/-- The literal overflow caption of source line 861. -/
def overflow_caption : String := "… (more sections not shown)"

/-- The overflow caption append (source lines 860–861): one caption when
sections were left undrawn, nothing otherwise. -/
def caption_elems (cursor : ℚ) (undrawn : Nat) : List Elem :=
  if undrawn = 0 then []
  else [Elem.text content_x (cursor + 18) overflow_caption "small" none]

/-- The footer link labels (source line 889). -/
def footer_links : List String := ["Home", "About", "News", "Read Me"]

/-- The footer links placement loop (source lines 892–895). -/
def footer_links_loop (x : ℚ) : List String → List Elem
  | [] => []
  | item :: rest =>
    Elem.text x (footer_y + 92) item "footer-link" none ::
      footer_links_loop (x + approx_text_width item + NAV_GAP) rest

/-- Newsletter band and footer strip (source lines 863–895), drawn
regardless of body content. -/
def band_footer_elems : List Elem :=
  let input_w : ℚ := 340
  let input_h : ℚ := 38
  let ix := content_x + content_w / 2 - input_w / 2 - 80
  let iy := band_y + 130
  let flw : ℚ := 140
  let flh : ℚ := 44
  let fx := content_x + content_w / 2 - flw / 2
  let fy := footer_y + 18
  let total_w := (footer_links.map approx_text_width).sum +
    (footer_links.length - 1 : Nat) * NAV_GAP
  let start_x := content_x + content_w / 2 - total_w / 2
  [Elem.rect content_x band_y content_w NEWSLETTER_BAND_H "panel-light" 14,
   Elem.text (content_x + content_w / 2) (band_y + 70) "Newsletter Sign Up"
     "h1" (some "middle"),
   Elem.text (content_x + content_w / 2) (band_y + 98)
     "Lorem ipsum dolor sit amet, consectetur adipiscing elit."
     "small muted" (some "middle"),
   Elem.rect ix iy input_w input_h "sketch" 8,
   Elem.button (ix + input_w + 18) iy 150 input_h "Action Button" true,
   Elem.rect content_x footer_y content_w FOOTER_DARK_H "panel-dark" 14,
   Elem.rect fx fy flw flh "sketch" 10,
   Elem.line (fx + 8) (fy + 8) (fx + flw - 8) (fy + flh - 8) "imgx",
   Elem.line (fx + flw - 8) (fy + 8) (fx + 8) (fy + flh - 8) "imgx"] ++
  footer_links_loop start_x footer_links

/-- The render-timestamp caption (source lines 897–898); `ts` is the
`datetime.now().strftime("%Y-%m-%d %H:%M")` value read at that point. -/
def ts_elem (ts : String) : Elem :=
  Elem.text (frame_x + frame_w - 260) (frame_y + frame_h + 18)
    ("Rendered: " ++ ts) "small" none

/-- Everything `render_page_svg` appends before the timestamp. -/
def render_pre (p : Page) (nav_items : List String) : List Elem :=
  page_prologue p ++ header_elems nav_items ++ (hero_part p).1 ++
    (body_part p).1 ++
    caption_elems (body_part p).2.1 (body_part p).2.2 ++
    band_footer_elems

/-- `render_page_svg(page_obj)` (source lines 785–901), with the ambient
navigation snapshot and the wall-clock string as explicit parameters. -/
def render_page_svg (p : Page) (nav_items : List String) (ts : String) : List Elem :=
  render_pre p nav_items ++ [ts_elem ts, Elem.raw "</svg>"]

/-- The output-name computation of `main` (source lines 922–926):
`safe_filename(page_name)`, overridden by the literal `"home"` when the
slug is `"/"`. -/
def out_name (p : Page) : String :=
  let fname := String.mk (safe_filename p.page.data)
  if p.slug = "/" then "home" else fname

/-! ## Untyped (raw JSON) values

`draw_section` is handed raw dictionaries; the typed model above covers
inputs whose present fields carry the documented types.  The semantic
overlay block (source lines 440–452) is the branch every section passes
through unconditionally (`SHOW_SEMANTIC_OVERLAY` is the constant `True`),
so its behaviour on malformed values decides whether `draw_section` can
raise.  `Val` mirrors the JSON value space and the evaluation of that
block, with Python runtime errors as `Except.error`. -/

inductive Val where
  | null
  | str (s : String)
  | int (n : Int)
  | list (xs : List Val)
  | dict (kvs : List (String × Val))
  deriving Repr

/-- `d.get(k, dflt)` on a dictionary's key/value list. -/
def dget (kvs : List (String × Val)) (k : String) (dflt : Val) : Val :=
  match kvs.find? (fun kv => kv.1 == k) with
  | some kv => kv.2
  | none => dflt

/-- `v.get(k, dflt)`: raises `AttributeError` unless `v` is a dict
(in particular when `v` is `None`). -/
def vGet (v : Val) (k : String) (dflt : Val) : Except String Val :=
  match v with
  | .dict kvs => .ok (dget kvs k dflt)
  | _ => .error "AttributeError: object has no attribute get"

/-- Python truthiness. -/
def truthy : Val → Bool
  | .null => false
  | .str s => s ≠ ""
  | .int n => n ≠ 0
  | .list xs => !xs.isEmpty
  | .dict kvs => !kvs.isEmpty

/-- Python `len(v)`: defined for sized values only. -/
def pyLenV : Val → Except String Nat
  | .str s => .ok s.length
  | .list xs => .ok xs.length
  | .dict kvs => .ok kvs.length
  | _ => .error "TypeError: object has no len"

/-- Python `v[:stop]` for nonnegative `stop`. -/
def pySliceV (v : Val) (stop : Nat) : Except String Val :=
  match v with
  | .str s => .ok (.str (String.mk (s.data.take stop)))
  | .list xs => .ok (.list (xs.take stop))
  | _ => .error "TypeError: object is not subscriptable"

/-- The semantic-overlay block of `draw_section` (source lines 441–445),
evaluated on the raw section value `sec`:
`sem = sec.get("semantic", {})`, `intent = sem.get("intent", "")`,
`facts = sem.get("supporting_facts", [])`,
`intent_short = (intent or "")[:60] + ("…" if intent and len(intent) > 60 else "")`,
`overlay = f"intent: {intent_short} • facts: {len(facts)}"`. -/
def semantic_overlay (sec : Val) : Except String String := do
  let sem ← vGet sec "semantic" (.dict [])
  let intent ← vGet sem "intent" (.str "")
  let facts ← vGet sem "supporting_facts" (.list [])
  let base ← pySliceV (if truthy intent then intent else .str "") 60
  let suffix ←
    if truthy intent then do
      let l ← pyLenV intent
      pure (if 60 < l then "…" else "")
    else pure ""
  let intent_short ←
    match base with
    | .str s => pure (s ++ suffix)
    | _ => Except.error "TypeError: can only concatenate"
  let fl ← pyLenV facts
  pure ("intent: " ++ intent_short ++ " • facts: " ++ toString fl)

/-! ## Observation helpers

Spec-side functions over the element buffer, used only to state
properties of the render output. -/

/-- The texts placed at a given x offset, in emission order. -/
def texts_at (es : List Elem) (x0 : ℚ) : List String :=
  es.filterMap (fun e =>
    match e with
    | Elem.text x _ t _ _ => if x = x0 then some t else none
    | _ => none)

/-- Number of dashed rectangles (class `sketch-dash`). -/
def dash_rects (es : List Elem) : Nat :=
  (es.filter (fun e =>
    match e with
    | Elem.rect _ _ _ _ cls _ => cls = "sketch-dash"
    | _ => false)).length

/-- Number of texts with the literal string `"IMAGE"` (the image
placeholder's caption). -/
def image_texts (es : List Elem) : Nat :=
  (es.filter (fun e =>
    match e with
    | Elem.text _ _ t _ _ => t = "IMAGE"
    | _ => false)).length

/-- x positions of texts that start with the bullet glyph. -/
def bullet_xs (es : List Elem) : List ℚ :=
  es.filterMap (fun e =>
    match e with
    | Elem.text x _ t _ _ => if t.data.head? = some '•' then some x else none
    | _ => none)

/-- Number of form input rows (class `sketch`, corner radius 8; the only
other `sketch` rectangle a section emits is its frame, radius 14). -/
def form_row_rects (es : List Elem) : Nat :=
  (es.filter (fun e =>
    match e with
    | Elem.rect _ _ _ _ cls rx => cls = "sketch" ∧ rx = 8
    | _ => false)).length

/-- The texts of a given class, in emission order. -/
def texts_of_class (es : List Elem) (cls : String) : List String :=
  es.filterMap (fun e =>
    match e with
    | Elem.text _ _ t c _ => if c = cls then some t else none
    | _ => none)

/-- Draw all sections of a list in order from `cursor` (what the
composer's walk emits when every section fits). -/
def drawRun (cursor : ℚ) (idx : Nat) : List Section → List Elem
  | [] => []
  | s :: rest =>
    (draw_section content_x cursor content_w s idx).1 ++
      drawRun (draw_section content_x cursor content_w s idx).2 (idx + 1) rest

/-- Every section of the list fits above `content_bottom_limit` when
drawn successively from `cursor`. -/
def allFit (cursor : ℚ) : List Section → Prop
  | [] => True
  | s :: rest =>
    cursor + (section_height_for s : ℚ) ≤ content_bottom_limit ∧
      allFit (cursor + (section_height_for s : ℚ) + SECTION_GAP) rest

/-! # Theorems -/

/-! ## List helper lemmas -/

theorem length_dropWhile_le {α : Type} (p : α → Bool) (l : List α) :
    (l.dropWhile p).length ≤ l.length := by
  induction l with
  | nil => simp
  | cons a l ih =>
    simp only [List.dropWhile_cons]
    split
    · exact Nat.le_succ_of_le ih
    · simp

theorem mem_of_mem_dropWhile {α : Type} (p : α → Bool) (l : List α) (c : α)
    (h : c ∈ l.dropWhile p) : c ∈ l := by
  induction l with
  | nil => simp at h
  | cons a l ih =>
    simp only [List.dropWhile_cons] at h
    split at h
    · exact List.mem_cons_of_mem a (ih h)
    · exact h

theorem head?_dropWhile_not {α : Type} (p : α → Bool) (l : List α) :
    ∀ c, (l.dropWhile p).head? = some c → p c = false := by
  induction l with
  | nil => intro c h; simp at h
  | cons a l ih =>
    intro c h
    simp only [List.dropWhile_cons] at h
    split at h
    · exact ih c h
    · rename_i ha
      simp only [List.head?_cons, Option.some.injEq] at h
      subst h
      simpa using ha

theorem getLast?_dropWhile {α : Type} (p : α → Bool) (l : List α)
    (h : l.dropWhile p ≠ []) : (l.dropWhile p).getLast? = l.getLast? := by
  induction l with
  | nil => simp at h
  | cons a l ih =>
    rw [List.dropWhile_cons] at h ⊢
    split at h
    · rename_i ha
      rw [if_pos ha]
      have hl : l ≠ [] := by
        intro he
        subst he
        simp at h
      rw [ih h]
      cases l with
      | nil => exact absurd rfl hl
      | cons b m => exact Eq.symm List.getLast?_cons_cons
    · rename_i ha
      rw [if_neg ha]

theorem pyStrip_length_le (l : List Char) : (pyStrip l).length ≤ l.length := by
  unfold pyStrip
  rw [List.length_reverse]
  calc ((l.dropWhile Char.isWhitespace).reverse.dropWhile Char.isWhitespace).length
      ≤ (l.dropWhile Char.isWhitespace).reverse.length :=
        length_dropWhile_le _ _
    _ = (l.dropWhile Char.isWhitespace).length := List.length_reverse _
    _ ≤ l.length := length_dropWhile_le _ _

theorem pyRstrip_length_le (l : List Char) : (pyRstrip l).length ≤ l.length := by
  unfold pyRstrip
  rw [List.length_reverse]
  calc (l.reverse.dropWhile Char.isWhitespace).length
      ≤ l.reverse.length := length_dropWhile_le _ _
    _ = l.length := List.length_reverse _

/-! ## C3 — per-type minimum height floor -/

/-- **C3** (confirmed): for every section, of any type tag and content,
`section_height_for` is at least the per-type minimum of its
canonicalized type: the minimum is a hard floor that content never
reduces. -/
theorem section_height_ge_per_type_min (sec : Section) :
    min_total (canon sec.type) ≤ section_height_for sec := by
  simp only [section_height_for]
  exact Nat.le_max_left _ _

/-! ## C5 — `truncate` -/

/-- **C5 counterexample**: `truncate` trims surrounding whitespace, so
`truncate(s, n) = s` fails for a short string with a leading blank even
though `len(s) ≤ n`. -/
theorem truncate_identity_counterexample :
    (" a".data.length ≤ 5) ∧ truncateL " a".data 5 ≠ " a".data := by
  decide

/-- **C5 (amended)**: for `n ≥ 1` the output length is at most `n`;
`truncate(s, n)` equals the *stripped* input whenever `len(s) ≤ n`
(and equals `s` itself when `s` carries no surrounding whitespace);
when the stripped text exceeds `n`, the result is its first `n - 1`
characters, right-stripped, plus one ellipsis character; empty input
yields the empty string. -/
theorem truncate_spec (s : List Char) (n : Int) :
    (1 ≤ n → ((truncateL s n).length : Int) ≤ n) ∧
    ((s.length : Int) ≤ n → truncateL s n = pyStrip s) ∧
    (pyStrip s = s → (s.length : Int) ≤ n → truncateL s n = s) ∧
    (n < ((pyStrip s).length : Int) → 1 ≤ n →
      truncateL s n = pyRstrip ((pyStrip s).take (n - 1).toNat) ++ ['…']) ∧
    (0 ≤ n → truncateL [] n = []) := by
  refine ⟨?_, ?_, ?_, ?_, ?_⟩
  · intro h1
    unfold truncateL
    by_cases hle : ((pyStrip s).length : Int) ≤ n
    · simp only [if_pos hle]
      exact hle
    · rw [if_neg hle]
      have htake : ((pyStrip s).take (n - 1).toNat).length ≤ (n - 1).toNat := by
        rw [List.length_take]
        exact Nat.min_le_left _ _
      have hr : (pyRstrip ((pyStrip s).take (n - 1).toNat)).length ≤ (n - 1).toNat :=
        le_trans (pyRstrip_length_le _) htake
      have hn : ((n - 1).toNat : Int) = n - 1 := Int.toNat_of_nonneg (by omega)
      have hs : (0 ≤ n - 1) := by omega
      simp only [pySliceTo, if_pos hs, List.length_append, List.length_cons,
        List.length_nil]
      omega
  · intro hle
    have : ((pyStrip s).length : Int) ≤ n := by
      have := pyStrip_length_le s
      omega
    unfold truncateL
    rw [if_pos this]
  · intro hps hle
    have h2 : ((pyStrip s).length : Int) ≤ n := by rw [hps]; exact hle
    unfold truncateL
    rw [if_pos h2, hps]
  · intro hgt h1
    unfold truncateL
    rw [if_neg (by omega)]
    simp only [pySliceTo, if_pos (show (0:Int) ≤ n - 1 by omega)]
  · intro h0
    unfold truncateL
    rw [if_pos (by simp [pyStrip]; omega)]
    rfl

/-- Witness for `truncate_spec` at concrete inputs. -/
theorem truncate_spec_witness :
    ((truncateL "a very long headline for a hero".data 10).length : Int) ≤ 10 ∧
    truncateL " abc ".data 10 = pyStrip " abc ".data ∧
    truncateL "abc".data 10 = "abc".data ∧
    truncateL [] 10 = [] := by
  refine ⟨(truncate_spec _ 10).1 (by decide),
    (truncate_spec " abc ".data 10).2.1 (by decide),
    (truncate_spec "abc".data 10).2.2.1 (by decide) (by decide),
    (truncate_spec [] 10).2.2.2.2 (by decide)⟩

/-! ## C10 — output file names -/

theorem subNonAllowedGo_chars (l : List Char) :
    ∀ b, ∀ c ∈ subNonAllowedGo b l, allowedChar c = true := by
  induction l with
  | nil => intro b c hc; simp [subNonAllowedGo] at hc
  | cons a l ih =>
    intro b c hc
    simp only [subNonAllowedGo] at hc
    by_cases ha : allowedChar a
    · rw [if_pos ha] at hc
      rcases List.mem_cons.mp hc with rfl | hc
      · exact ha
      · exact ih false c hc
    · rw [if_neg ha] at hc
      by_cases hb : b
      · rw [if_pos hb] at hc
        exact ih true c hc
      · rw [if_neg hb] at hc
        rcases List.mem_cons.mp hc with rfl | hc
        · decide
        · exact ih true c hc

theorem collapseDashesGo_mem (l : List Char) :
    ∀ b c, c ∈ collapseDashesGo b l → c ∈ l ∨ c = '-' := by
  induction l with
  | nil => intro b c hc; simp [collapseDashesGo] at hc
  | cons a l ih =>
    intro b c hc
    simp only [collapseDashesGo] at hc
    by_cases hd : a = '-'
    · rw [if_pos hd] at hc
      by_cases hb : b
      · rw [if_pos hb] at hc
        rcases ih true c hc with h | h
        · exact Or.inl (List.mem_cons_of_mem a h)
        · exact Or.inr h
      · rw [if_neg hb] at hc
        rcases List.mem_cons.mp hc with rfl | hc
        · exact Or.inr rfl
        · rcases ih true c hc with h | h
          · exact Or.inl (List.mem_cons_of_mem a h)
          · exact Or.inr h
    · rw [if_neg hd] at hc
      rcases List.mem_cons.mp hc with rfl | hc
      · exact Or.inl (List.mem_cons_self _ _)
      · rcases ih false c hc with h | h
        · exact Or.inl (List.mem_cons_of_mem a h)
        · exact Or.inr h

theorem stripDashes_mem (l : List Char) (c : Char) (h : c ∈ stripDashes l) :
    c ∈ l := by
  unfold stripDashes at h
  rw [List.mem_reverse] at h
  have h2 := mem_of_mem_dropWhile _ _ _ h
  rw [List.mem_reverse] at h2
  exact mem_of_mem_dropWhile _ _ _ h2

theorem stripDashes_head (l : List Char) (c : Char)
    (h : (stripDashes l).head? = some c) : c ≠ '-' := by
  unfold stripDashes at h
  rw [List.head?_reverse] at h
  have hne : (l.dropWhile (· = '-')).reverse.dropWhile (· = '-') ≠ [] := by
    intro he
    rw [he] at h
    simp at h
  rw [getLast?_dropWhile _ _ hne, List.getLast?_reverse] at h
  intro hc
  subst hc
  have h2 := head?_dropWhile_not _ _ _ h
  simp at h2

theorem stripDashes_last (l : List Char) (c : Char)
    (h : (stripDashes l).getLast? = some c) : c ≠ '-' := by
  unfold stripDashes at h
  rw [List.getLast?_reverse] at h
  intro hc
  subst hc
  have h2 := head?_dropWhile_not _ _ _ h
  simp at h2

theorem safe_filename_chars (s : List Char) :
    ∀ c ∈ safe_filename s, allowedChar c = true := by
  intro c hc
  simp only [safe_filename] at hc
  split at hc
  · revert hc
    revert c
    decide
  · have h1 := stripDashes_mem _ _ hc
    rcases collapseDashesGo_mem _ _ _ h1 with h2 | h2
    · exact subNonAllowedGo_chars _ _ _ h2
    · subst h2; decide

theorem safe_filename_ne_nil (s : List Char) : safe_filename s ≠ [] := by
  simp only [safe_filename]
  split
  · decide
  · assumption

theorem safe_filename_head (s : List Char) :
    (safe_filename s).head? ≠ some '-' := by
  simp only [safe_filename]
  split
  · decide
  · intro h
    exact stripDashes_head _ _ h rfl

theorem safe_filename_last (s : List Char) :
    (safe_filename s).getLast? ≠ some '-' := by
  simp only [safe_filename]
  split
  · decide
  · intro h
    exact stripDashes_last _ _ h rfl

/-- **C10 counterexample**: the output name is `"home"` also for a page
whose slug is not `"/"` but whose name slugifies to `"home"` — the
claimed "exactly when the slug is `/`" fails in the forward direction. -/
theorem out_name_home_counterexample :
    out_name { page := "Home", slug := "/home" } = "home" ∧
    ("/home" : String) ≠ "/" := by
  constructor
  · rfl
  · decide

/-- **C10 (amended)**: the output name is the literal `"home"` whenever
the slug is `"/"`; otherwise it is `safe_filename` of the page name.
`safe_filename` always yields a non-empty string over `a-z`, `0-9` and
hyphen (hence lowercase), with no leading or trailing hyphen, defaulting
to `"page"`.  (It can also yield `"home"`, so "exactly when" does not
hold.) -/
theorem out_name_spec (p : Page) (s : List Char) :
    (p.slug = "/" → out_name p = "home") ∧
    (p.slug ≠ "/" → out_name p = String.mk (safe_filename p.page.data)) ∧
    safe_filename s ≠ [] ∧
    (∀ c ∈ safe_filename s, allowedChar c = true) ∧
    (safe_filename s).head? ≠ some '-' ∧
    (safe_filename s).getLast? ≠ some '-' := by
  refine ⟨?_, ?_, safe_filename_ne_nil s, safe_filename_chars s,
    safe_filename_head s, safe_filename_last s⟩
  · intro h
    simp [out_name, h]
  · intro h
    simp [out_name, h]

/-- Witness for `out_name_spec` at a concrete page and name. -/
theorem out_name_spec_witness :
    out_name { page := "About  Us!", slug := "/about" } =
      String.mk (safe_filename "About  Us!".data) ∧
    safe_filename "  Hello, World!  ".data ≠ [] := by
  exact ⟨(out_name_spec { page := "About  Us!", slug := "/about" } []).2.1
      (by decide),
    (out_name_spec { page := "", slug := "/" } "  Hello, World!  ".data).2.2.1⟩

/-! ## C4 — monotonicity of section height in list content -/

theorem clamped_count_eq (sec : Section) (kind : String) (dflt cap : Nat) :
    clamped_count sec kind dflt cap =
      if firstItemsN sec kind = 0 then dflt
      else max dflt (min cap (firstItemsN sec kind)) := by
  unfold clamped_count firstItemsN
  cases find_components sec [kind] with
  | nil => simp
  | cons c rest =>
    simp only
    by_cases h : list_items_from_component c = []
    · simp [h]
    · have hlen : (list_items_from_component c).length ≠ 0 := by
        simpa [List.length_eq_zero] using h
      simp [h, hlen]

theorem clamped_count_mono (s t : Section) (kind : String) (dflt cap : Nat)
    (h : firstItemsN s kind ≤ firstItemsN t kind) :
    clamped_count s kind dflt cap ≤ clamped_count t kind dflt cap := by
  rw [clamped_count_eq, clamped_count_eq]
  rcases Nat.eq_zero_or_pos (firstItemsN s kind) with hs | hs
  · rw [if_pos hs]
    split
    · exact Nat.le_refl _
    · exact Nat.le_max_left _ _
  · have hs' : firstItemsN s kind ≠ 0 := Nat.pos_iff_ne_zero.mp hs
    have ht' : firstItemsN t kind ≠ 0 := by omega
    rw [if_neg hs', if_neg ht']
    exact max_le_max (Nat.le_refl _) (min_le_min (Nat.le_refl _) h)

set_option maxHeartbeats 1000000 in
/-- `_inner_bottom_for_section` at content origin 0, written as a case
table over the canonical type with the arithmetic folded. -/
theorem inner_bottom_cases (st : String) (sec : Section) :
    _inner_bottom_for_section st sec 0 =
      if canon st = "hero" then 254
      else if canon st = "features" then 154
      else if canon st = "content" then
        max (200 + clamped_count sec "list" 4 12 * 22)
          (96 + ((find_components sec ["text"]).length - 1) * 22) + 18
      else if canon st = "faq" then clamped_count sec "accordion" 4 10 * 44 + 10
      else if canon st = "proof" then
        (if find_components sec ["quote"] ≠ [] then 104
         else if find_components sec ["stats"] ≠ [] then 124 else 104)
      else if canon st = "steps" then clamped_count sec "list" 3 8 * 36 + 18
      else if canon st = "form" then
        70 + (if find_components sec ffKinds = [] then 3
              else max 3 (min 6 (find_components sec ffKinds).length)) * 36 + 18
      else if canon st = "cta" ∨ canon st = "footer-cta" ∨ canon st = "footer_cta" ∨
          canon st = "cta-section" ∨ canon st = "call-to-action" then 142
      else (if sec.components = [] then 3 else min 6 sec.components.length) * 44 + 18 := by
  simp only [_inner_bottom_for_section, COMP_H, COMP_GAP]
  split_ifs <;> omega

set_option maxHeartbeats 2000000 in
/-- **C4** (confirmed): `section_height_for` never decreases when the
number of list-type items grows — same canonical type, same counts of
text, field-like and total components and same quote/stats presence,
larger (or equal) item counts for the first `list`/`accordion`
component. -/
theorem section_height_mono_in_items (s t : Section)
    (hty : canon s.type = canon t.type)
    (hlist : firstItemsN s "list" ≤ firstItemsN t "list")
    (hacc : firstItemsN s "accordion" ≤ firstItemsN t "accordion")
    (htext : textN s = textN t)
    (hfield : fieldN s = fieldN t)
    (hcomp : s.components.length = t.components.length)
    (hquote : has_comp s "quote" = has_comp t "quote")
    (hstats : has_comp s "stats" = has_comp t "stats") :
    section_height_for s ≤ section_height_for t := by
  have hC := clamped_count_mono s t "list" 4 12 hlist
  have hC2 := clamped_count_mono s t "accordion" 4 10 hacc
  have hC3 := clamped_count_mono s t "list" 3 8 hlist
  have htext' : (find_components s ["text"]).length =
      (find_components t ["text"]).length := htext
  have hfield' : (find_components s ffKinds).length =
      (find_components t ffKinds).length := hfield
  have hfe : (find_components s ffKinds = []) ↔ (find_components t ffKinds = []) := by
    rw [← List.length_eq_zero, ← List.length_eq_zero, hfield']
  have hcompe : (s.components = []) ↔ (t.components = []) := by
    rw [← List.length_eq_zero, ← List.length_eq_zero, hcomp]
  have hquote' : (find_components s ["quote"] = []) ↔
      (find_components t ["quote"] = []) := by
    simpa [has_comp, decide_eq_decide] using hquote
  have hstats' : (find_components s ["stats"] = []) ↔
      (find_components t ["stats"] = []) := by
    simpa [has_comp, decide_eq_decide] using hstats
  have key : _inner_bottom_for_section (canon t.type) s 0 ≤
      _inner_bottom_for_section (canon t.type) t 0 := by
    rw [inner_bottom_cases (canon t.type) s, inner_bottom_cases (canon t.type) t]
    rw [htext', hfield']
    split_ifs <;> first | omega | (exfalso; tauto)
  simp only [section_height_for]
  rw [hty]
  exact max_le_max (Nat.le_refl _) (by omega)

/-- Witness for `section_height_mono_in_items`: a `content` section's
height with 4 versus 9 bullet items. -/
theorem section_height_mono_witness :
    section_height_for ⟨none, "content", none, "", [],
        [⟨"list", none, "", [], ["a", "b", "c", "d"]⟩], ⟨"", []⟩⟩ ≤
      section_height_for ⟨none, "content", none, "", [],
        [⟨"list", none, "", [], ["a", "b", "c", "d", "e", "f", "g", "h", "i"]⟩],
        ⟨"", []⟩⟩ :=
  section_height_mono_in_items _ _ (by decide) (by decide) (by decide)
    (by decide) (by decide) (by decide) (by decide) (by decide)

/-! ## C8 — the generic fallback scenario -/

/-- **C8 counterexample**: the `bogus-type` section with two
unknown-kind components has total height 220 — the default per-type
minimum — not the generic-formula value
`72 + (2·(COMP_H + COMP_GAP) + 18) + 8 = 186`; the claimed equality with
the generic formula fails because the formula is capped from below. -/
theorem generic_height_formula_counterexample :
    section_height_for ⟨none, "bogus-type", none, "", [],
        [⟨"widget", some "W1", "", [], []⟩, ⟨"gizmo", some "G2", "", [], []⟩],
        ⟨"", []⟩⟩ = 220 ∧
    72 + (2 * (COMP_H + COMP_GAP) + 18) + 8 = 186 ∧ (220 : Nat) ≠ 186 := by
  decide

/-- **C8 (amended)**: scenario C renders through the generic fallback —
exactly two dashed rows whose texts are the two components' best display
texts — and its total height is
`max 220 (72 + (2·(COMP_H + COMP_GAP) + 18) + 8)`, i.e. the generic
formula capped from below by the default per-type minimum (= 220). -/
theorem generic_fallback_spec :
    dash_rects (draw_section content_x 510 content_w
        ⟨none, "bogus-type", none, "", [],
          [⟨"widget", some "W1", "", [], []⟩, ⟨"gizmo", some "G2", "", [], []⟩],
          ⟨"", []⟩⟩ 1).1 = 2 ∧
    texts_of_class (draw_section content_x 510 content_w
        ⟨none, "bogus-type", none, "", [],
          [⟨"widget", some "W1", "", [], []⟩, ⟨"gizmo", some "G2", "", [], []⟩],
          ⟨"", []⟩⟩ 1).1 "small" = ["W1", "G2"] ∧
    section_height_for ⟨none, "bogus-type", none, "", [],
        [⟨"widget", some "W1", "", [], []⟩, ⟨"gizmo", some "G2", "", [], []⟩],
        ⟨"", []⟩⟩ =
      Nat.max 220 (72 + (2 * (COMP_H + COMP_GAP) + 18) + 8) := by
  refine ⟨by decide, by decide, by decide⟩

/-! ## C7 — the form branch -/

/-- **C7 counterexample**: a `form` section with six field-like
components draws only five input rows, not one per component. -/
theorem form_rows_counterexample :
    (find_components ⟨none, "form", none, "Contact", [],
        List.replicate 6 ⟨"field", some "F", "", [], []⟩, ⟨"", []⟩⟩
      ffKinds).length = 6 ∧
    form_row_rects (draw_section content_x 510 content_w
        ⟨none, "form", none, "Contact", [],
          List.replicate 6 ⟨"field", some "F", "", [], []⟩, ⟨"", []⟩⟩ 1).1 = 5 ∧
    (5 : Nat) ≠ 6 := by
  decide

theorem form_row_rects_append (a b : List Elem) :
    form_row_rects (a ++ b) = form_row_rects a + form_row_rects b := by
  simp [form_row_rects, List.filter_append]

theorem form_rows_elems_count (ix iy iw : ℚ) (shown : List String) :
    form_row_rects (form_rows_elems ix iy iw shown) = shown.length := by
  unfold form_rows_elems
  rw [← List.enum_length (l := shown)]
  generalize shown.enum = l
  induction l with
  | nil => rfl
  | cons a l ih =>
    rw [List.flatMap_cons, form_row_rects_append, ih]
    simp [form_row_rects, List.filter_cons]
    omega

theorem texts_of_class_append (a b : List Elem) (cls : String) :
    texts_of_class (a ++ b) cls = texts_of_class a cls ++ texts_of_class b cls := by
  simp [texts_of_class, List.filterMap_append]

theorem form_rows_elems_texts (ix iy iw : ℚ) (shown : List String) :
    texts_of_class (form_rows_elems ix iy iw shown) "small muted" = shown := by
  unfold form_rows_elems
  conv_rhs => rw [← List.enum_map_snd shown]
  generalize shown.enum = l
  induction l with
  | nil => rfl
  | cons a l ih =>
    rw [List.flatMap_cons, texts_of_class_append, ih]
    simp [texts_of_class, List.filterMap_cons]

set_option maxHeartbeats 1000000 in
/-- **C7 (amended)**: a `form` section draws one input row per
field-like component *capped at five* (the height but not the drawing
admits six); the `small muted` texts are exactly the section's id line,
the subtitle, and then one label per drawn row — the components' display
texts, or the literal fallback rows `["Name","Email","Message"]` when no
field-like component exists — followed by a submit button whose right
edge is flush with the inner content edge; the section height is the
fixed offset `168` plus row height `36` times
`clamp(3, 6, fieldComponentCount)`. -/
theorem form_branch_spec (x y w : ℚ) (sec : Section) (idx : Nat)
    (hst : canon sec.type = "form") :
    form_row_rects (draw_section x y w sec idx).1 =
      (if find_components sec ffKinds = [] then 3
       else min 5 (find_components sec ffKinds).length) ∧
    texts_of_class (draw_section x y w sec idx).1 "small muted" =
      ("form • id: " ++ sec.id.getD ("section-" ++ toString (idx + 1))) ::
      (match sec.h3 with
       | s :: _ => truncate s 80
       | [] => "Lorem ipsum dolor sit amet, consectetur adipiscing elit.") ::
      (if find_components sec ffKinds = [] then ["Name", "Email", "Message"]
       else (((find_components sec ffKinds).take 6).map
         (fun c => truncate (best_text_for_component c (c.label.getD "Field")) 40)).take 5) ∧
    (∃ yb lbl, Elem.button (x + SECTION_PAD + (w - 2 * SECTION_PAD) - 150) yb
        150 34 lbl true ∈ (draw_section x y w sec idx).1) ∧
    (x + SECTION_PAD + (w - 2 * SECTION_PAD) - 150) + 150 =
      x + SECTION_PAD + (w - 2 * SECTION_PAD) ∧
    section_height_for sec = 168 + 36 * max 3 (min 6 (fieldN sec)) := by
  have hmin : min_total "form" = 240 := rfl
  have hh : section_height_for sec = 168 + 36 * max 3 (min 6 (fieldN sec)) := by
    have hib := inner_bottom_cases (canon sec.type) sec
    rw [hst] at hib
    have hcanon : canon "form" = "form" := rfl
    rw [hcanon] at hib
    simp only [String.reduceEq, reduceIte] at hib
    simp only [section_height_for, hst, hib, hmin]
    unfold fieldN
    by_cases hff : find_components sec ffKinds = []
    · simp [hff]
    · have hne : (find_components sec ffKinds).length ≠ 0 := by
        simpa [List.length_eq_zero] using hff
      simp only [if_neg hff]
      omega
  refine ⟨?_, ?_, ?_, by ring, hh⟩
  · simp only [draw_section, hst, String.reduceEq, reduceIte]
    rw [form_row_rects_append, form_row_rects_append, form_row_rects_append,
      form_rows_elems_count]
    by_cases hff : find_components sec ffKinds = []
    · simp [hff, form_row_rects, List.filter_cons]
    · simp only [if_neg hff]
      have hne : (find_components sec ffKinds).take 6 ≠ [] := by
        simp [List.take_eq_nil_iff, hff]
      have hmapne : ((find_components sec ffKinds).take 6).map
          (fun c => truncate (best_text_for_component c (c.label.getD "Field")) 40) ≠ [] := by
        simpa using hne
      simp only [if_neg hmapne]
      simp [form_row_rects, List.filter_cons, List.length_take, List.length_map]
      omega
  · simp only [draw_section, hst, String.reduceEq, reduceIte]
    rw [texts_of_class_append, texts_of_class_append, texts_of_class_append,
      form_rows_elems_texts]
    by_cases hff : find_components sec ffKinds = []
    · simp [hff, texts_of_class, List.filterMap_cons]
    · have hne : (find_components sec ffKinds).take 6 ≠ [] := by
        simp [List.take_eq_nil_iff, hff]
      have hmapne : ((find_components sec ffKinds).take 6).map
          (fun c => truncate (best_text_for_component c (c.label.getD "Field")) 40) ≠ [] := by
        simpa using hne
      simp only [if_neg hff, if_neg hmapne]
      simp [texts_of_class, List.filterMap_cons]
  · simp only [draw_section, hst, String.reduceEq, reduceIte]
    exact ⟨_, _, List.mem_append_right _
      (List.mem_append_right _ (List.mem_singleton.mpr rfl))⟩

/-- Witness for `form_branch_spec`: a form with no field-like component
draws exactly the three literal fallback rows `Name`, `Email`, `Message`
and has height `168 + 36·3`. -/
theorem form_branch_spec_witness :
    form_row_rects (draw_section content_x 510 content_w
        ⟨none, "form", none, "Contact", [], [], ⟨"", []⟩⟩ 1).1 = 3 ∧
    texts_of_class (draw_section content_x 510 content_w
        ⟨none, "form", none, "Contact", [], [], ⟨"", []⟩⟩ 1).1 "small muted" =
      ["form • id: section-2",
       "Lorem ipsum dolor sit amet, consectetur adipiscing elit.",
       "Name", "Email", "Message"] ∧
    section_height_for ⟨none, "form", none, "Contact", [], [], ⟨"", []⟩⟩ =
      168 + 36 * 3 := by
  have h := form_branch_spec content_x 510 content_w
    ⟨none, "form", none, "Contact", [], [], ⟨"", []⟩⟩ 1 (by decide)
  refine ⟨?_, ?_, ?_⟩
  · rw [h.1]; decide
  · rw [h.2.1]; decide
  · rw [h.2.2.2.2]; decide

/-! ## C6 — failure semantics on malformed sections -/

/-- **C6**: the semantic-overlay block, which every `draw_section` call
evaluates unconditionally (`SHOW_SEMANTIC_OVERLAY` is the constant
`True`), raises `AttributeError` when the `semantic` key is present with
value `null` — `sem.get("intent", "")` is evaluated on `None` — whereas
a *missing* `semantic` key defaults to `{}` and renders the empty
overlay text.  So `draw_section` does not produce output for every
section dictionary: the literal default at `sec.get("semantic", {})`
does not cover a present-but-null value. -/
theorem overlay_raises_on_null_semantic :
    semantic_overlay (Val.dict [("semantic", Val.null)]) =
      Except.error "AttributeError: object has no attribute get" ∧
    semantic_overlay (Val.dict []) = Except.ok "intent:  • facts: 0" :=
  ⟨rfl, rfl⟩

/-! ## C9 — determinism of page rendering -/

/-- **C9 counterexample**: two invocations on the same page with the
same navigation snapshot but different wall-clock minutes produce
different documents — the render-timestamp caption differs. -/
theorem render_not_time_invariant :
    render_page_svg ⟨"Home", "/", "", []⟩ default_nav "2024-01-01 00:00" ≠
      render_page_svg ⟨"Home", "/", "", []⟩ default_nav "2024-01-02 00:00" := by
  intro h
  unfold render_page_svg at h
  have h2 := List.append_cancel_left h
  simp only [ts_elem, List.cons.injEq, Elem.text.injEq] at h2
  exact absurd h2.1.2.2.1 (by decide)

/-- **C9 (amended)**: a render is determined by the page, the
navigation snapshot and the timestamp — the two ambient reads the
source performs (the cached nav lookup and `datetime.now()`) are its
only inputs beyond the page — and the timestamp affects exactly the
final caption: every render is the timestamp-independent prefix
`render_pre p nav` followed by the timestamp caption and the closing
tag, so two renders at different times agree except on that caption. -/
theorem render_deterministic_given_snapshot (p : Page) (nav : List String)
    (ts ts' : String) :
    render_page_svg p nav ts = render_pre p nav ++ [ts_elem ts, Elem.raw "</svg>"] ∧
    (render_page_svg p nav ts).dropLast.dropLast =
      (render_page_svg p nav ts').dropLast.dropLast := by
  have e : ∀ ts0 : String,
      (render_page_svg p nav ts0).dropLast.dropLast = render_pre p nav := by
    intro ts0
    show ((render_pre p nav ++ [ts_elem ts0, Elem.raw "</svg>"]).dropLast).dropLast = _
    rw [show render_pre p nav ++ [ts_elem ts0, Elem.raw "</svg>"] =
      (render_pre p nav ++ [ts_elem ts0]) ++ [Elem.raw "</svg>"] by simp]
    rw [List.dropLast_concat, List.dropLast_concat]
  exact ⟨rfl, by rw [e ts, e ts']⟩

/-! ## C2 — the content bulleted block -/

theorem padTo_length (l : List String) (n : Nat) :
    (padTo l n).length = max l.length n := by
  simp [padTo]
  omega

theorem filterMap_map_none {α β : Type} (g : Elem → Option β) (f : α → Elem)
    (l : List α) (h : ∀ a, g (f a) = none) : (l.map f).filterMap g = [] := by
  induction l with
  | nil => rfl
  | cons a l ih => simp [h, ih]

theorem filterMap_map_some {α β : Type} (g : Elem → Option β) (f : α → Elem)
    (k : α → β) (l : List α) (h : ∀ a, g (f a) = some (k a)) :
    (l.map f).filterMap g = l.map k := by
  induction l with
  | nil => rfl
  | cons a l ih => simp [h, ih]

theorem filter_map_false {α : Type} (P : Elem → Bool) (f : α → Elem)
    (l : List α) (h : ∀ a, P (f a) = false) : (l.map f).filter P = [] := by
  induction l with
  | nil => rfl
  | cons a l ih => simp [h, ih]

theorem range_getD_map {β : Type} (F : String → β) (l : List String) :
    (List.range l.length).map (fun i => F (l.getD i "")) = l.map F := by
  induction l with
  | nil => rfl
  | cons a l ih =>
    rw [List.length_cons, List.range_succ_eq_map]
    simp only [List.map_cons, List.map_map, List.getD_cons_zero]
    rw [← ih]
    refine congrArg (List.cons (F a)) ?_
    apply List.map_congr_left
    intro i _
    simp [Function.comp, List.getD_cons_succ]

theorem bullet_ne_IMAGE (t : String) : ("• " ++ t) ≠ "IMAGE" := by
  intro h
  have h2 : ("• " ++ t).data = "IMAGE".data := congrArg String.data h
  rw [String.data_append] at h2
  have h3 : some '•' = some 'I' := congrArg List.head? h2
  exact absurd (Option.some.inj h3) (by decide)

theorem dash_rects_append (a b : List Elem) :
    dash_rects (a ++ b) = dash_rects a + dash_rects b := by
  simp [dash_rects, List.filter_append]

theorem image_texts_append (a b : List Elem) :
    image_texts (a ++ b) = image_texts a + image_texts b := by
  simp [image_texts, List.filter_append]

theorem texts_at_append (a b : List Elem) (x0 : ℚ) :
    texts_at (a ++ b) x0 = texts_at a x0 ++ texts_at b x0 := by
  simp [texts_at, List.filterMap_append]

theorem bullet_xs_append (a b : List Elem) :
    bullet_xs (a ++ b) = bullet_xs a ++ bullet_xs b := by
  simp [bullet_xs, List.filterMap_append]

theorem dash_rects_line_cons (x1 y1 x2 y2 : ℚ) (cls : String) (es : List Elem) :
    dash_rects (Elem.line x1 y1 x2 y2 cls :: es) = dash_rects es := by
  simp [dash_rects]

theorem image_texts_line_cons (x1 y1 x2 y2 : ℚ) (cls : String) (es : List Elem) :
    image_texts (Elem.line x1 y1 x2 y2 cls :: es) = image_texts es := by
  simp [image_texts]

theorem texts_at_line_cons (x1 y1 x2 y2 : ℚ) (cls : String) (es : List Elem) (x0 : ℚ) :
    texts_at (Elem.line x1 y1 x2 y2 cls :: es) x0 = texts_at es x0 := by
  simp [texts_at]

theorem bullet_xs_line_cons (x1 y1 x2 y2 : ℚ) (cls : String) (es : List Elem) :
    bullet_xs (Elem.line x1 y1 x2 y2 cls :: es) = bullet_xs es := by
  simp [bullet_xs]

theorem bullet_col_dash_rects (bx cy : ℚ) (ml : Int) (l : List String) (rows : Nat) :
    dash_rects (bullet_col_elems bx cy ml l rows) = 0 := by
  unfold dash_rects bullet_col_elems
  rw [filter_map_false]
  · rfl
  · intro a
    rfl

theorem bullet_col_image_texts (bx cy : ℚ) (ml : Int) (l : List String) (rows : Nat) :
    image_texts (bullet_col_elems bx cy ml l rows) = 0 := by
  unfold image_texts bullet_col_elems
  rw [filter_map_false]
  · rfl
  · intro a
    exact decide_eq_false (bullet_ne_IMAGE _)

theorem bullet_col_texts_at (bx cy x0 : ℚ) (ml : Int) (l : List String) (rows : Nat)
    (h : bx + 6 = x0) (hlen : l.length = rows) :
    texts_at (bullet_col_elems bx cy ml l rows) x0 =
      l.map (fun s_ => "• " ++ truncate s_ ml) := by
  unfold texts_at bullet_col_elems
  rw [filterMap_map_some _ _ (fun i => "• " ++ truncate (l.getD i "") ml) _
    (fun i => by
      show (if bx + 6 = x0 then some ("• " ++ truncate (l.getD i "") ml) else none) =
        some ("• " ++ truncate (l.getD i "") ml)
      rw [if_pos h])]
  rw [← hlen]
  exact range_getD_map (fun s_ => "• " ++ truncate s_ ml) l

theorem bullet_col_texts_at_ne (bx cy x0 : ℚ) (ml : Int) (l : List String) (rows : Nat)
    (h : ¬ (bx + 6 = x0)) :
    texts_at (bullet_col_elems bx cy ml l rows) x0 = [] := by
  unfold texts_at bullet_col_elems
  exact filterMap_map_none _ _ _ (fun i => by
    show (if bx + 6 = x0 then some ("• " ++ truncate (l.getD i "") ml) else none) = none
    rw [if_neg h])

theorem bullet_col_xs (bx cy : ℚ) (ml : Int) (l : List String) (rows : Nat) :
    ∀ q ∈ bullet_xs (bullet_col_elems bx cy ml l rows), q = bx + 6 := by
  intro q hq
  unfold bullet_xs bullet_col_elems at hq
  rw [filterMap_map_some _ _ (fun _ => bx + 6) _ (fun i => by
    show (if ("• " ++ truncate (l.getD i "") ml).data.head? = some '•' then
        some (bx + 6) else none) = some (bx + 6)
    have hcond : ("• " ++ truncate (l.getD i "") ml).data.head? = some '•' := by
      rw [String.data_append]
      rfl
    rw [if_pos hcond])] at hq
  rcases List.mem_map.mp hq with ⟨i, _, hi⟩
  exact hi.symm

theorem image_ph_dash_rects (a b c d : ℚ) :
    dash_rects (image_ph_elems a b c d) = 1 := by
  simp [dash_rects, image_ph_elems]

theorem image_ph_image_texts (a b c d : ℚ) :
    image_texts (image_ph_elems a b c d) = 1 := by
  simp [image_texts, image_ph_elems]

theorem image_ph_texts_at (a b c d x0 : ℚ) (h : ¬ (a + 14 = x0)) :
    texts_at (image_ph_elems a b c d) x0 = [] := by
  simp [texts_at, image_ph_elems, if_neg h]

theorem image_ph_bullet_xs (a b c d : ℚ) :
    bullet_xs (image_ph_elems a b c d) = [] := by
  simp [bullet_xs, image_ph_elems]

set_option maxHeartbeats 1600000 in
/-- **C2 (amended)**: the content bulleted block at the composer's
geometry (`inner_x = 72`, `inner_w = 1056`; bullet texts sit at
`x = 78`, the right column at `x = 619`).  Fewer than 8 items: exactly
one dashed image placeholder with its `"IMAGE"` caption, a single
bullet column at 78 listing the items (capped at 10, padded to at least
4 rows), and a leading vertical divider.  8 or more: no placeholder,
two bullet columns — the left receives the first `⌈min(n,12)/2⌉` of the
first `min(n,12)` items, the right the remainder, both padded with the
literal filler to the same row count — and the divider stands at the
horizontal midpoint `72 + 1056/2`.  The split is capped at 12 items, so
for `n ≥ 13` the left column holds 6 items, not `⌈n/2⌉`. -/
theorem content_bullets_spec (hy_ : ℚ) (raw : List String) :
    (raw.length < 8 →
      dash_rects (contentBulletElems 72 1056 hy_ raw) = 1 ∧
      image_texts (contentBulletElems 72 1056 hy_ raw) = 1 ∧
      texts_at (contentBulletElems 72 1056 hy_ raw) 78 =
        (padTo (raw.take 10) (max 4 (raw.take 10).length)).map
          (fun s_ => "• " ++ truncate s_ 52) ∧
      (∀ q ∈ bullet_xs (contentBulletElems 72 1056 hy_ raw), q = 78) ∧
      (∃ x1 yt yb, (contentBulletElems 72 1056 hy_ raw).head? =
        some (Elem.line x1 yt x1 yb "imgx"))) ∧
    (8 ≤ raw.length →
      dash_rects (contentBulletElems 72 1056 hy_ raw) = 0 ∧
      image_texts (contentBulletElems 72 1056 hy_ raw) = 0 ∧
      texts_at (contentBulletElems 72 1056 hy_ raw) 78 =
        (padTo ((raw.take 12).take ((min raw.length 12 + 1) / 2))
            (max 4 ((min raw.length 12 + 1) / 2))).map
          (fun s_ => "• " ++ truncate s_ 34) ∧
      texts_at (contentBulletElems 72 1056 hy_ raw) 619 =
        (padTo ((raw.take 12).drop ((min raw.length 12 + 1) / 2))
            (max 4 ((min raw.length 12 + 1) / 2))).map
          (fun s_ => "• " ++ truncate s_ 34) ∧
      (texts_at (contentBulletElems 72 1056 hy_ raw) 78).length =
        (texts_at (contentBulletElems 72 1056 hy_ raw) 619).length ∧
      (∀ q ∈ bullet_xs (contentBulletElems 72 1056 hy_ raw), q = 78 ∨ q = 619) ∧
      (∃ yt yb, (contentBulletElems 72 1056 hy_ raw).head? =
        some (Elem.line (72 + 1056 / 2) yt (72 + 1056 / 2) yb "imgx"))) := by
  constructor
  · intro h8
    have hc : ¬ 8 ≤ raw.length := by omega
    have hlenA : (padTo (raw.take 10) (max 4 (raw.take 10).length)).length =
        max 4 (raw.take 10).length := by
      rw [padTo_length]
      omega
    simp only [contentBulletElems, if_neg hc]
    have h55 : pyInt (1056 * (55 / 100 : ℚ)) = 580 := by
      simp only [pyInt]
      rw [if_pos (by norm_num)]
      norm_num
    rw [h55]
    have h86 : pyInt ((1056 - ((580 : ℤ) : ℚ) - 26) * (86 / 100 : ℚ)) = 387 := by
      simp only [pyInt]
      rw [if_pos (by norm_num)]
      norm_num
    rw [h86]
    refine ⟨?_, ?_, ?_, ?_, ?_⟩
    · rw [dash_rects_line_cons, dash_rects_append, bullet_col_dash_rects,
        image_ph_dash_rects]
    · rw [image_texts_line_cons, image_texts_append, bullet_col_image_texts,
        image_ph_image_texts]
    · rw [texts_at_line_cons, texts_at_append,
        bullet_col_texts_at _ _ _ _ _ _ (show (72 : ℚ) + 6 = 78 by norm_num) hlenA,
        image_ph_texts_at _ _ _ _ _ (by norm_num), List.append_nil]
    · intro q hq
      rw [bullet_xs_line_cons, bullet_xs_append, image_ph_bullet_xs,
        List.append_nil] at hq
      have h78 := bullet_col_xs _ _ _ _ _ q hq
      rw [h78]
      norm_num
    · exact ⟨_, _, _, rfl⟩
  · intro h8
    have hc : 8 ≤ raw.length := h8
    simp only [contentBulletElems, if_pos hc]
    have hn' : (raw.take 12).length = min raw.length 12 := by
      simp [List.length_take, Nat.min_comm]
    rw [hn']
    have hL : ((raw.take 12).take ((min raw.length 12 + 1) / 2)).length =
        (min raw.length 12 + 1) / 2 := by
      simp [List.length_take]
      omega
    have hR : ((raw.take 12).drop ((min raw.length 12 + 1) / 2)).length =
        min raw.length 12 - (min raw.length 12 + 1) / 2 := by
      simp [List.length_drop, List.length_take]
      omega
    rw [hL, hR]
    have hrows : max 4 (max ((min raw.length 12 + 1) / 2)
        (min raw.length 12 - (min raw.length 12 + 1) / 2)) =
        max 4 ((min raw.length 12 + 1) / 2) := by omega
    rw [hrows]
    have hlenL : (padTo ((raw.take 12).take ((min raw.length 12 + 1) / 2))
        (max 4 ((min raw.length 12 + 1) / 2))).length =
        max 4 ((min raw.length 12 + 1) / 2) := by
      rw [padTo_length, hL]
      omega
    have hlenR : (padTo ((raw.take 12).drop ((min raw.length 12 + 1) / 2))
        (max 4 ((min raw.length 12 + 1) / 2))).length =
        max 4 ((min raw.length 12 + 1) / 2) := by
      rw [padTo_length, hR]
      omega
    have ht78 : texts_at (Elem.line (72 + (1056 - 26) / 2 + 26 / 2) (hy_ + 32 - 6)
        (72 + (1056 - 26) / 2 + 26 / 2)
        (hy_ + 32 + ((max 4 ((min raw.length 12 + 1) / 2) : Nat) : ℚ) * 22 + 6) "imgx" ::
        (bullet_col_elems 72 (hy_ + 32) 34
            (padTo ((raw.take 12).take ((min raw.length 12 + 1) / 2))
              (max 4 ((min raw.length 12 + 1) / 2)))
            (max 4 ((min raw.length 12 + 1) / 2)) ++
          bullet_col_elems (72 + ((1056 - 26) / 2 + 26)) (hy_ + 32) 34
            (padTo ((raw.take 12).drop ((min raw.length 12 + 1) / 2))
              (max 4 ((min raw.length 12 + 1) / 2)))
            (max 4 ((min raw.length 12 + 1) / 2)))) 78 =
        (padTo ((raw.take 12).take ((min raw.length 12 + 1) / 2))
            (max 4 ((min raw.length 12 + 1) / 2))).map
          (fun s_ => "• " ++ truncate s_ 34) := by
      rw [texts_at_line_cons, texts_at_append,
        bullet_col_texts_at _ _ _ _ _ _ (show (72 : ℚ) + 6 = 78 by norm_num) hlenL,
        bullet_col_texts_at_ne _ _ _ _ _ _ (by norm_num), List.append_nil]
    have ht619 : texts_at (Elem.line (72 + (1056 - 26) / 2 + 26 / 2) (hy_ + 32 - 6)
        (72 + (1056 - 26) / 2 + 26 / 2)
        (hy_ + 32 + ((max 4 ((min raw.length 12 + 1) / 2) : Nat) : ℚ) * 22 + 6) "imgx" ::
        (bullet_col_elems 72 (hy_ + 32) 34
            (padTo ((raw.take 12).take ((min raw.length 12 + 1) / 2))
              (max 4 ((min raw.length 12 + 1) / 2)))
            (max 4 ((min raw.length 12 + 1) / 2)) ++
          bullet_col_elems (72 + ((1056 - 26) / 2 + 26)) (hy_ + 32) 34
            (padTo ((raw.take 12).drop ((min raw.length 12 + 1) / 2))
              (max 4 ((min raw.length 12 + 1) / 2)))
            (max 4 ((min raw.length 12 + 1) / 2)))) 619 =
        (padTo ((raw.take 12).drop ((min raw.length 12 + 1) / 2))
            (max 4 ((min raw.length 12 + 1) / 2))).map
          (fun s_ => "• " ++ truncate s_ 34) := by
      rw [texts_at_line_cons, texts_at_append,
        bullet_col_texts_at_ne _ _ _ _ _ _ (by norm_num),
        bullet_col_texts_at _ _ _ _ _ _
          (show (72 : ℚ) + ((1056 - 26) / 2 + 26) + 6 = 619 by norm_num) hlenR,
        List.nil_append]
    refine ⟨?_, ?_, ht78, ht619, ?_, ?_, ?_⟩
    · rw [dash_rects_line_cons, dash_rects_append, bullet_col_dash_rects,
        bullet_col_dash_rects]
    · rw [image_texts_line_cons, image_texts_append, bullet_col_image_texts,
        bullet_col_image_texts]
    · rw [ht78, ht619]
      simp only [List.length_map, hlenL, hlenR]
    · intro q hq
      rw [bullet_xs_line_cons, bullet_xs_append] at hq
      rcases List.mem_append.mp hq with hql | hqr
      · left
        have h78 := bullet_col_xs _ _ _ _ _ q hql
        rw [h78]
        norm_num
      · right
        have h619 := bullet_col_xs _ _ _ _ _ q hqr
        rw [h619]
        norm_num
    · refine ⟨hy_ + 32 - 6,
        hy_ + 32 + ((max 4 ((min raw.length 12 + 1) / 2) : Nat) : ℚ) * 22 + 6, ?_⟩
      rw [show (72 : ℚ) + 1056 / 2 = 72 + (1056 - 26) / 2 + 26 / 2 by norm_num]
      rfl

/-- **C2 counterexample**: with 13 items the source splits only the
first 12 (`items = bullet_items_raw[:12]`): the drawn bullet texts are
the first twelve items — six per column, not `⌈13/2⌉ = 7` on the left —
and the 13th item is drawn nowhere. -/
theorem content_split_counterexample :
    (13 + 1) / 2 = 7 ∧
    texts_of_class (contentBulletElems 72 1056 340
        ["a", "b", "c", "d", "e", "f", "g", "h", "i", "j", "k", "l", "m"])
        "small" =
      ["• a", "• b", "• c", "• d", "• e", "• f",
       "• g", "• h", "• i", "• j", "• k", "• l"] ∧
    "• m" ∉ texts_of_class (contentBulletElems 72 1056 340
        ["a", "b", "c", "d", "e", "f", "g", "h", "i", "j", "k", "l", "m"])
        "small" := by
  refine ⟨rfl, by decide, by decide⟩

/-- Witness for `content_bullets_spec`: ten items yield two balanced
columns of five bullet rows each (row count 5 = max 4 ⌈10/2⌉) and no
image placeholder. -/
theorem content_bullets_spec_witness :
    dash_rects (contentBulletElems 72 1056 340
        ["a", "b", "c", "d", "e", "f", "g", "h", "i", "j"]) = 0 ∧
    image_texts (contentBulletElems 72 1056 340
        ["a", "b", "c", "d", "e", "f", "g", "h", "i", "j"]) = 0 ∧
    (texts_at (contentBulletElems 72 1056 340
        ["a", "b", "c", "d", "e", "f", "g", "h", "i", "j"]) 78).length =
      (texts_at (contentBulletElems 72 1056 340
        ["a", "b", "c", "d", "e", "f", "g", "h", "i", "j"]) 619).length ∧
    (padTo ((["a", "b", "c", "d", "e", "f", "g", "h", "i", "j"].take 12).take
        ((min (["a", "b", "c", "d", "e", "f", "g", "h", "i", "j"] :
            List String).length 12 + 1) / 2))
      (max 4 ((min (["a", "b", "c", "d", "e", "f", "g", "h", "i", "j"] :
            List String).length 12 + 1) / 2))).length = 5 := by
  have h := (content_bullets_spec 340
    ["a", "b", "c", "d", "e", "f", "g", "h", "i", "j"]).2 (by decide)
  exact ⟨h.1, h.2.1, h.2.2.2.2.1, by decide⟩

/-! ## C1 — the page composer's section walk -/

theorem draw_section_snd (x y w : ℚ) (sec : Section) (idx : Nat) :
    (draw_section x y w sec idx).2 =
      y + (section_height_for sec : ℚ) + SECTION_GAP := rfl

theorem body_walk_spec (secs : List Section) (cursor : ℚ) (idx : Nat) :
    (body_walk cursor idx secs).2.2 ≤ secs.length ∧
    (body_walk cursor idx secs).1 =
      drawRun cursor idx
        (secs.take (secs.length - (body_walk cursor idx secs).2.2)) ∧
    allFit cursor (secs.take (secs.length - (body_walk cursor idx secs).2.2)) ∧
    (∀ s rest,
      secs.drop (secs.length - (body_walk cursor idx secs).2.2) = s :: rest →
      content_bottom_limit <
        (body_walk cursor idx secs).2.1 + (section_height_for s : ℚ)) := by
  induction secs generalizing cursor idx with
  | nil =>
    refine ⟨Nat.le_refl _, rfl, trivial, ?_⟩
    intro s rest h
    simp [body_walk] at h
  | cons s rest ih =>
    by_cases hfit : content_bottom_limit < cursor + (section_height_for s : ℚ)
    · simp only [body_walk, if_pos hfit]
      refine ⟨Nat.le_refl _, ?_, ?_, ?_⟩
      · simp [drawRun]
      · simp only [List.length_cons, Nat.sub_self, List.take_zero]
        trivial
      · simp only [List.length_cons, Nat.sub_self, List.drop_zero]
        intro s' rest' heq
        cases heq
        exact hfit
    · simp only [body_walk, if_neg hfit]
      obtain ⟨ih1, ih2, ih3, ih4⟩ :=
        ih (draw_section content_x cursor content_w s idx).2 (idx + 1)
      have hk : (s :: rest).length -
          (body_walk (draw_section content_x cursor content_w s idx).2 (idx + 1)
            rest).2.2 =
          (rest.length -
            (body_walk (draw_section content_x cursor content_w s idx).2 (idx + 1)
              rest).2.2) + 1 := by
        simp only [List.length_cons]
        omega
      refine ⟨?_, ?_, ?_, ?_⟩
      · simp only [List.length_cons]
        omega
      · rw [hk, List.take_succ_cons]
        simp only [drawRun]
        rw [ih2]
      · rw [hk, List.take_succ_cons]
        refine ⟨not_lt.mp hfit, ?_⟩
        rw [← draw_section_snd content_x cursor content_w s idx]
        exact ih3
      · rw [hk, List.drop_succ_cons]
        exact ih4

/-- **C1** (confirmed): the Page Composer fills the hero slot, then
walks the remaining sections in their original order, drawing a section
exactly when its computed height fits before `content_bottom_limit`
(the reserved region above the newsletter band): the drawn body is
`drawRun` over a *prefix* of the remaining sections (none partial, none
reordered), every drawn section fits, the walk stops at the first
section that does not fit, and the literal overflow caption is emitted
exactly once when sections are left undrawn and zero times when all
fit. -/
theorem page_walk_spec (p : Page) (nav : List String) (ts : String) :
    render_page_svg p nav ts =
      page_prologue p ++ header_elems nav ++ (hero_part p).1 ++
        (body_part p).1 ++
        caption_elems (body_part p).2.1 (body_part p).2.2 ++
        band_footer_elems ++ [ts_elem ts, Elem.raw "</svg>"] ∧
    (body_part p).2.2 ≤ (remaining_sections p).length ∧
    (body_part p).1 = drawRun (hero_part p).2 (start_idx p)
      ((remaining_sections p).take
        ((remaining_sections p).length - (body_part p).2.2)) ∧
    allFit (hero_part p).2 ((remaining_sections p).take
        ((remaining_sections p).length - (body_part p).2.2)) ∧
    (∀ s rest, (remaining_sections p).drop
        ((remaining_sections p).length - (body_part p).2.2) = s :: rest →
      content_bottom_limit < (body_part p).2.1 + (section_height_for s : ℚ)) ∧
    (caption_elems (body_part p).2.1 (body_part p).2.2).length =
      (if (body_part p).2.2 = 0 then 0 else 1) := by
  have h := body_walk_spec (remaining_sections p) (hero_part p).2 (start_idx p)
  refine ⟨?_, h.1, h.2.1, h.2.2.1, h.2.2.2, ?_⟩
  · simp [render_page_svg, render_pre, List.append_assoc]
  · unfold caption_elems
    split <;> simp

/-- Witness for `page_walk_spec` at a concrete page. -/
theorem page_walk_spec_witness :
    (body_part ⟨"Home", "/", "Welcome", []⟩).2.2 ≤
      (remaining_sections ⟨"Home", "/", "Welcome", []⟩).length ∧
    (caption_elems (body_part ⟨"Home", "/", "Welcome", []⟩).2.1
        (body_part ⟨"Home", "/", "Welcome", []⟩).2.2).length =
      (if (body_part ⟨"Home", "/", "Welcome", []⟩).2.2 = 0 then 0 else 1) :=
  ⟨(page_walk_spec ⟨"Home", "/", "Welcome", []⟩ default_nav "2024-01-01 00:00").2.1,
   (page_walk_spec ⟨"Home", "/", "Welcome", []⟩ default_nav
      "2024-01-01 00:00").2.2.2.2.2⟩

end Wireframes
